import Mathlib

set_option maxHeartbeats 1000000

/-
Shallow embedding of the metadata-ingestion worker pipeline of the
music-library backend: src/workers/update_metadata.py and
src/workers/helpers.py, together with the rows of the data model
(src/app/models.py) that the pipeline reads or writes.

Modelling conventions, written next to each definition where they matter:
* Django rows become Lean structures holding only the fields the pipeline
  touches; `CharField`/`TextField`/image columns that the worker may leave
  unset or assign `None` to are `Option String` (slug derivation, counters
  and timestamps are untouched by the pipeline and omitted).
* An `ImageField` slot is `Option String`: `none` is "no image" (Django's
  empty-string file name or NULL), `some u` an image downloaded from url
  `u` (the uuid file name is represented by its source url).
* Loosely-typed catalog responses become structures of `Option` fields;
  a call that can raise returns `Option` (`none` = the call raised).
* Uncaught Python exceptions are surfaced as a `RunError` value together
  with the database state reached so far (nothing is rolled back).
* Filesystem-only side effects (the artist.nfo sidecar) are not modelled;
  image downloads are recorded in a fetch log `fetchedImages`.
-/

/-- One entry of a `thumbnails` list in a catalog or extractor response. -/
structure Thumb where
  url : Option String
deriving DecidableEq, Repr

/-- Exceptions the driver can hit.  `fetchError` stands for a raised
catalog/extractor call, `indexError` for a Python IndexError,
`typeError` for a TypeError, `attrError` for an AttributeError and
`doesNotExist` for a failed foreign-key lookup. -/
inductive RunError where
  | fetchError
  | indexError
  | typeError
  | attrError
  | doesNotExist
deriving DecidableEq, Repr

/-- An Artist row (app/models.py, class Artist), restricted to the fields
the worker pipeline reads or writes.  `id` is the primary key. -/
structure Artist where
  id : Nat
  name : Option String
  bio : Option String
  profile_picture : Option String
  banner : Option String
  parse_tracks : Bool
  yt_id : Option String
deriving DecidableEq, Repr

/-- An Album row (app/models.py, class Album).  `release_year` stands for
the `release_date` column, which the pipeline only ever sets to
January 1 of a year; `artistId` is the owning Artist's primary key. -/
structure Album where
  id : Nat
  title : Option String
  cover : Option String
  track_count : Int
  release_year : Option Int
  album_type : String
  artistId : Nat
  yt_id : Option String
deriving DecidableEq, Repr

/-- A Track row (app/models.py, class Track).  `featured` is the set of
primary keys in the `featured_artists` many-to-many relation, in
insertion order. -/
structure Track where
  id : Nat
  title : Option String
  order : Option Int
  duration : Option Int
  albumId : Nat
  featured : List Nat
  yt_id : Option String
deriving DecidableEq, Repr

/-- The relational store the worker reconciles, plus fresh-primary-key
counters and a log of every image url the pipeline downloaded
(`download_and_save_image` appends to it). -/
structure DB where
  artists : List Artist
  albums : List Album
  tracks : List Track
  nextArtistId : Nat
  nextAlbumId : Nat
  nextTrackId : Nat
  fetchedImages : List String
deriving DecidableEq, Repr

/-- The field names of the Album model (app/models.py).  Django's
`Model.__init__` raises TypeError for any keyword argument that is not
one of these; in particular there is no field named `type` (the column
for the single/album/EP kind is `album_type`). -/
def albumModelFieldNames : List String :=
  ["id", "title", "cover", "track_count", "release_date", "album_type", "slug", "artist", "yt_id"]

/-- One entry of `metadata["albums"]["results"]` in a get_artist
response.  The source reads the release year from the entry's `type`
key (`date(int(album.get("type")), 1, 1)` — the key is misnamed
upstream); the value is modelled already int-parsed, `none` standing
for an absent key, on which `int(None)` raises TypeError. -/
structure AlbumResult where
  title : Option String
  browseId : Option String
  type : Option Int
  thumbnails : Option (List Thumb)
deriving DecidableEq, Repr

/-- The `singles` section of a get_artist response. -/
structure SinglesSection where
  browseId : Option String
  params : Option String
deriving DecidableEq, Repr

/-- One entry of a get_artist_albums (singles) listing.  `year` is
modelled already int-parsed as in `AlbumResult.type`. -/
structure SingleEntry where
  title : Option String
  type : Option String
  browseId : Option String
  year : Option Int
  thumbnails : Option (List Thumb)
deriving DecidableEq, Repr

/-- A get_artist response.  `thumbnails` and `albumsResults` are the
lists the source indexes into (`albumsResults` models
`metadata.get("albums", defaultResults).get("results")`). -/
structure ArtistMeta where
  name : Option String
  description : Option String
  thumbnails : List Thumb
  albumsResults : List AlbumResult
  singles : Option SinglesSection
deriving DecidableEq, Repr

/-- One artist credit on a track entry of a get_album response. -/
structure TrackArtist where
  id : Option String
  name : Option String
deriving DecidableEq, Repr

/-- One entry of `metadata["tracks"]` in a get_album response.
`artists` is `none` when the key is absent, in which case the source's
`for artist in track.get("artists")` iterates None and raises. -/
structure TrackEntry where
  videoId : Option String
  title : Option String
  trackNumber : Option Int
  duration_seconds : Option Int
  artists : Option (List TrackArtist)
deriving DecidableEq, Repr

/-- A get_album response. -/
structure AlbumMeta where
  title : Option String
  trackCount : Option Int
  thumbnails : Option (List Thumb)
  tracks : Option (List TrackEntry)
deriving DecidableEq, Repr

/-- The catalog client (ytmusicapi).  A `none` result models the call
raising an exception. -/
structure Catalog where
  get_artist : Option String → Option ArtistMeta
  get_artist_albums : Option String → Option String → Option (List SingleEntry)
  get_album : Option String → Option AlbumMeta

/-- A metadata-only extractor response of the media fetcher (yt_dlp),
as used by the profile-picture pass. -/
structure PPInfo where
  thumbnails : Option (List Thumb)
deriving DecidableEq, Repr

/-- The media fetcher in metadata-only mode.  A `none` result models the
extractor raising. -/
structure Media where
  extract_info : String → Option PPInfo

/-- The five run-configuration flags of the driver
(`--name --banner --album --pp --tracks`). -/
structure Flags where
  name : Bool
  banner : Bool
  album : Bool
  pp : Bool
  tracks : Bool
deriving DecidableEq, Repr

/-- Python truthiness of an optional string (None and "" are falsy). -/
def truthyStr : Option String → Bool
  | none => false
  | some s => s != ""

/-- helpers.download_and_save_image: a no-op when `url` is falsy;
otherwise the content at `url` is fetched (recorded in the log) and
attached to the image slot. -/
def download_and_save_image (slot : Option String) (url : Option String) (log : List String) :
    Option String × List String :=
  match url with
  | none => (slot, log)
  | some u => if u = "" then (slot, log) else (some u, log ++ [u])

/-- `artist.save()`: writes the snapshot's pipeline-mutable fields
(name, bio, banner, profile_picture) into the row with the same primary
key.  Django writes every column from the snapshot; since the driver
only ever changes these four between load and save, writing just them
is equivalent. -/
def saveArtist (db : DB) (a : Artist) : DB :=
  { db with artists := db.artists.map (fun b =>
      if b.id = a.id then
        { b with name := a.name, bio := a.bio, banner := a.banner,
                 profile_picture := a.profile_picture }
      else b) }

/-- `album.save()` after the tracks pass set title and track_count. -/
def saveAlbumTitleCount (db : DB) (pk : Nat) (t : Option String) (c : Int) : DB :=
  { db with albums := db.albums.map (fun b =>
      if b.id = pk then { b with title := t, track_count := c } else b) }

/-- Attach a downloaded cover to an album row (FieldFile.save with
save=True persists the row at once). -/
def saveAlbumCoverRow (db : DB) (pk : Nat) (cv : Option String) : DB :=
  { db with albums := db.albums.map (fun b =>
      if b.id = pk then { b with cover := cv } else b) }

/-- `if artist not in track_obj.featured_artists.all():
track_obj.featured_artists.add(artist)` on the track row `trackPk`. -/
def addFeaturedRow (db : DB) (trackPk : Nat) (artistPk : Nat) : DB :=
  { db with tracks := db.tracks.map (fun t =>
      if t.id = trackPk then
        (if artistPk ∈ t.featured then t else { t with featured := t.featured ++ [artistPk] })
      else t) }

/-- Short-circuiting left fold of a unit-of-work body: each unit yields a
new state and possibly an uncaught exception, which aborts the sweep
keeping the state reached so far (the driver has no transactions). -/
def foldU {α : Type} (f : DB → α → DB × Option RunError) : DB → List α → DB × Option RunError
  | db, [] => (db, none)
  | db, x :: xs =>
    match f db x with
    | (db1, none) => foldU f db1 xs
    | (db1, some e) => (db1, some e)

/-- One entry of the regular-album discovery loop
(update_metadata.py lines 73-83): skip when an Album with the entry's
browseId already exists, otherwise create the Album (release date
January 1 of the year the response stores under `type`) and fetch its
cover from the last thumbnail entry (`[{}]` default when the key is
absent; `[-1]` on a present-but-empty list raises IndexError after the
row was already created).  The cover attach updates the
freshly-created row. -/
def albumEntryStep (db : DB) (artistPk : Nat) (e : AlbumResult) : DB × Option RunError :=
  if db.albums.any (fun al => al.yt_id == e.browseId) then (db, none)
  else
    match e.type with
    | none => (db, some RunError.typeError)
    | some y =>
      let newAlb : Album :=
        { id := db.nextAlbumId, title := e.title, cover := none, track_count := 0,
          release_year := some y, album_type := "album", artistId := artistPk,
          yt_id := e.browseId }
      let thumbs := e.thumbnails.getD [Thumb.mk none]
      match thumbs.getLast? with
      | none =>
        ({ db with albums := db.albums ++ [newAlb], nextAlbumId := db.nextAlbumId + 1 },
         some RunError.indexError)
      | some t =>
        let p := download_and_save_image none t.url db.fetchedImages
        ({ db with albums := db.albums ++ [{ newAlb with cover := p.1 }],
                   nextAlbumId := db.nextAlbumId + 1, fetchedImages := p.2 }, none)

/-- One entry of the singles creation loop (update_metadata.py lines
91-100).  The call site is
`Album.objects.create(title=..., type=single.get("type").lower(),
yt_id=..., release_date=date(int(single.get("year")), 1, 1), artist=artist)`:
keyword values are evaluated first (`None.lower()` raises
AttributeError, `int(None)` raises TypeError), and then Django's
`Model.__init__` raises TypeError because `type` is not a field of the
Album model (the model's column is `album_type`,
see `albumModelFieldNames`), so no row is ever inserted. -/
def singleEntryStep (db : DB) (artistPk : Nat) (e : SingleEntry) : DB × Option RunError :=
  match e.type with
  | none => (db, some RunError.attrError)
  | some ty =>
    match e.year with
    | none => (db, some RunError.typeError)
    | some y =>
      if albumModelFieldNames.contains "type" then
        let newAlb : Album :=
          { id := db.nextAlbumId, title := e.title, cover := none, track_count := 0,
            release_year := some y, album_type := ty.toLower, artistId := artistPk,
            yt_id := e.browseId }
        let thumbs := e.thumbnails.getD [Thumb.mk none]
        match thumbs.getLast? with
        | none =>
          ({ db with albums := db.albums ++ [newAlb], nextAlbumId := db.nextAlbumId + 1 },
           some RunError.indexError)
        | some t =>
          let p := download_and_save_image none t.url db.fetchedImages
          ({ db with albums := db.albums ++ [{ newAlb with cover := p.1 }],
                     nextAlbumId := db.nextAlbumId + 1, fetchedImages := p.2 }, none)
      else (db, some RunError.typeError)

/-- The singles block (update_metadata.py lines 85-100): only entered
when the response has a truthy `singles.browseId` and the `--tracks`
flag is set; the get_artist_albums call is not wrapped in try/except,
so its failure aborts the run. -/
def singlesStep (cat : Catalog) (flags : Flags) (db : DB) (artistPk : Nat)
    (s : Option SinglesSection) : DB × Option RunError :=
  match s with
  | none => (db, none)
  | some sec =>
    if truthyStr sec.browseId ∧ flags.tracks then
      match cat.get_artist_albums sec.browseId sec.params with
      | none => (db, some RunError.fetchError)
      | some singles => foldU (fun d e => singleEntryStep d artistPk e) db singles
    else (db, none)

/-- The `if artist.parse_tracks:` branch of the artist pass
(update_metadata.py lines 70-102): album discovery then the singles
block; skipped entirely when parse_tracks is False. -/
def parseTracksStage (cat : Catalog) (flags : Flags) (db : DB) (a : Artist)
    (md : ArtistMeta) : DB × Option RunError :=
  if a.parse_tracks then
    match foldU (fun d e => albumEntryStep d a.id e) db md.albumsResults with
    | (db1, some e) => (db1, some e)
    | (db1, none) => singlesStep cat flags db1 a.id md.singles
  else (db, none)

/-- One artist of the enrichment pass (update_metadata.py lines 51-102):
get_artist is wrapped in try/except (failure skips the artist); name
and bio are set and saved (the artist.nfo rewrite is a filesystem-only
effect, not modelled); if the thumbnails list is non-empty and the
banner is empty, thumbnail index 1 is fetched as the banner
(IndexError when the list has exactly one entry); then the
parse_tracks branch runs. -/
def artistEnrichStep (cat : Catalog) (flags : Flags) (db : DB) (art : Artist) :
    DB × Option RunError :=
  match cat.get_artist art.yt_id with
  | none => (db, none)
  | some md =>
    let a1 : Artist := { art with name := md.name, bio := md.description }
    let db1 := saveArtist db a1
    if 0 < md.thumbnails.length ∧ a1.banner = none then
      match md.thumbnails.get? 1 with
      | none => (db1, some RunError.indexError)
      | some t =>
        let p := download_and_save_image a1.banner t.url db1.fetchedImages
        let a2 := { a1 with banner := p.1 }
        parseTracksStage cat flags (saveArtist { db1 with fetchedImages := p.2 } a2) a2 md
    else parseTracksStage cat flags db1 a1 md

/-- Q(name__isnull=True) | Q(name="") of the `--name` flag. -/
def nameBlankQ (a : Artist) : Bool := a.name == none || a.name == some ""

/-- Q(banner__isnull=True) | Q(banner="") of the `--banner` flag (both
empty shapes are `none` in this model). -/
def bannerBlankQ (a : Artist) : Bool := a.banner == none

/-- Q(albums__isnull=True, parse_tracks=True) of the `--album` flag. -/
def albumQ (db : DB) (a : Artist) : Bool :=
  db.albums.all (fun al => al.artistId != a.id) && a.parse_tracks

/-- The artist-selection filter built by `query = Q(); if args.name:
query &= ...` (update_metadata.py lines 36-47): the conjunction of the
conditions of exactly the flags that are set. -/
def artistSelected (flags : Flags) (db : DB) (a : Artist) : Bool :=
  (!flags.name || nameBlankQ a) && (!flags.banner || bannerBlankQ a) &&
    (!flags.album || albumQ db a)

/-- The artist enrichment pass: runs only when one of the --name,
--banner, --album flags is set, sweeping the artists matched by the
combined filter (queryset snapshot taken at pass start). -/
def artistPass (cat : Catalog) (flags : Flags) (db : DB) : DB × Option RunError :=
  if flags.name || flags.banner || flags.album then
    foldU (artistEnrichStep cat flags) db (db.artists.filter (artistSelected flags db))
  else (db, none)

/-- One artist of the profile-picture pass (update_metadata.py lines
116-124): a channel url is built from yt_id (`None.startswith` raises
AttributeError), the extractor is queried without a try/except, and
the first thumbnail, if any, is attached. -/
def ppStep (media : Media) (db : DB) (a : Artist) : DB × Option RunError :=
  match a.yt_id with
  | none => (db, some RunError.attrError)
  | some yid =>
    let artistUrl :=
      if yid.startsWith "https://" then yid else "https://youtube.com/channel/" ++ yid
    match media.extract_info artistUrl with
    | none => (db, some RunError.fetchError)
    | some info =>
      match info.thumbnails with
      | none => (db, none)
      | some [] => (db, none)
      | some (t :: _) =>
        let p := download_and_save_image a.profile_picture t.url db.fetchedImages
        (saveArtist { db with fetchedImages := p.2 } { a with profile_picture := p.1 }, none)

/-- The profile-picture pass: sweeps `Artist.objects.filter(profile_picture="")`
whenever --pp is set, independently of the other flags. -/
def ppPass (media : Media) (flags : Flags) (db : DB) : DB × Option RunError :=
  if flags.pp then
    foldU (ppStep media) db (db.artists.filter (fun a => a.profile_picture == none))
  else (db, none)

/-- One track-artist credit of the tracks pass (update_metadata.py lines
151-161): when the credit has a truthy id and a name different from the
album's primary artist, get-or-create an Artist by external id
(created with parse_tracks=False) and attach it as a featured artist
of the track if not already attached. -/
def trackArtistStep (db : DB) (albumArtistId : Nat) (trackPk : Nat) (ta : TrackArtist) :
    DB × Option RunError :=
  if truthyStr ta.id then
    match db.artists.find? (fun b => b.id == albumArtistId) with
    | none => (db, some RunError.doesNotExist)
    | some albArtist =>
      if ta.name ≠ albArtist.name then
        match db.artists.find? (fun b => b.yt_id == ta.id) with
        | some b => (addFeaturedRow db trackPk b.id, none)
        | none =>
          let b : Artist :=
            { id := db.nextArtistId, name := ta.name, bio := none, profile_picture := none,
              banner := none, parse_tracks := false, yt_id := ta.id }
          (addFeaturedRow
            { db with artists := db.artists ++ [b], nextArtistId := db.nextArtistId + 1 }
            trackPk b.id, none)
      else (db, none)
  else (db, none)

/-- One track entry of the tracks pass (update_metadata.py lines
140-161): `Track.objects.get_or_create(yt_id=..., defaults=...)` — the
lookup is keyed solely by the external id; only when no row matches is
a Track created with title/order/duration/album from the entry.  Then
the artist-credit loop runs (`track.get("artists")` absent iterates
None and raises TypeError, after the get-or-create already ran). -/
def processTrackEntry (db : DB) (albumPk : Nat) (albumArtistId : Nat) (e : TrackEntry) :
    DB × Option RunError :=
  let st : Nat × DB :=
    match db.tracks.find? (fun t => t.yt_id == e.videoId) with
    | some t => (t.id, db)
    | none =>
      let t : Track :=
        { id := db.nextTrackId, title := e.title, order := e.trackNumber,
          duration := e.duration_seconds, albumId := albumPk, featured := [],
          yt_id := e.videoId }
      (t.id, { db with tracks := db.tracks ++ [t], nextTrackId := db.nextTrackId + 1 })
  match e.artists with
  | none => (st.2, some RunError.typeError)
  | some tas => foldU (fun d ta => trackArtistStep d albumArtistId st.1 ta) st.2 tas

/-- The cover refresh inside the tracks pass (update_metadata.py lines
137-138): only when the album's cover is still empty, the last entry of
the response's thumbnails list is fetched (`[{}]` default when the key
is absent; `[-1]` on a present-but-empty list raises IndexError). -/
def albumCoverStep (db1 : DB) (alb : Album) (md : AlbumMeta) : DB × Option RunError :=
  if alb.cover = none then
    let thumbs := md.thumbnails.getD [Thumb.mk none]
    match thumbs.getLast? with
    | none => (db1, some RunError.indexError)
    | some t =>
      let p := download_and_save_image alb.cover t.url db1.fetchedImages
      (saveAlbumCoverRow { db1 with fetchedImages := p.2 } alb.id p.1, none)
  else (db1, none)

/-- One album of the tracks pass (update_metadata.py lines 131-162):
get_album is NOT wrapped in try/except, so its failure aborts the run;
title and track_count (`int(metadata.get("trackCount", 0))`) are
rewritten and saved on every visit; the cover is refreshed by
`albumCoverStep`; then every track entry is processed. -/
def processAlbumTracks (cat : Catalog) (db : DB) (alb : Album) : DB × Option RunError :=
  match cat.get_album alb.yt_id with
  | none => (db, some RunError.fetchError)
  | some md =>
    let db1 := saveAlbumTitleCount db alb.id md.title (md.trackCount.getD 0)
    match albumCoverStep db1 alb md with
    | (db2, some e) => (db2, some e)
    | (db2, none) =>
      foldU (fun d e => processTrackEntry d alb.id alb.artistId e) db2 (md.tracks.getD [])

/-- The track-discovery sweep: `Album.objects.filter(tracks__isnull=True)`
(albums with zero tracks), queryset snapshot taken at pass start. -/
def tracksPass (cat : Catalog) (db : DB) : DB × Option RunError :=
  foldU (processAlbumTracks cat) db
    (db.albums.filter (fun alb => db.tracks.all (fun t => t.albumId != alb.id)))

/-- The tracks pass runs whenever --tracks is set, independently of the
other flags. -/
def tracksPassRun (cat : Catalog) (flags : Flags) (db : DB) : DB × Option RunError :=
  if flags.tracks then tracksPass cat db else (db, none)

/-- The whole reconciliation driver (update_metadata.py): the artist
enrichment pass, then the profile-picture pass, then the tracks pass;
an uncaught exception in a pass ends the script, skipping the later
passes but keeping every change saved so far. -/
def runDriver (cat : Catalog) (media : Media) (flags : Flags) (db : DB) :
    DB × Option RunError :=
  match artistPass cat flags db with
  | (db1, some e) => (db1, some e)
  | (db1, none) =>
    match ppPass media flags db1 with
    | (db2, some e) => (db2, some e)
    | (db2, none) => tracksPassRun cat flags db2

/-- helpers.write_metadata's view of a Track: its tag-relevant fields
and relations (primary-artist name via track.album.artist, featured
artist names in relation iteration order). -/
structure TagTrack where
  title : String
  order : Int
  albumTitle : String
  albumArtist : String
  featured : List String
deriving DecidableEq, Repr

/-- The multi-artist value written by write_metadata: the primary artist
first, then `;name` appended for each featured artist in iteration
order. -/
def joinedArtists (t : TagTrack) : String :=
  t.featured.foldl (fun acc n => acc ++ ";" ++ n) t.albumArtist

/-- helpers.write_metadata (lines 52-68): the tag fields written into the
audio file, in assignment order.  When the track has at least one
featured artist (`track.featured_artists.count() > 0`) the plural
`artists` field is written with the semicolon-joined value instead of
the singular `artist` field. -/
def write_metadata (t : TagTrack) : List (String × String) :=
  [("title", t.title)] ++
    (if 0 < t.featured.length then [("artists", joinedArtists t)]
     else [("artist", t.albumArtist)]) ++
    [("album", t.albumTitle), ("albumartist", t.albumArtist),
     ("tracknumber", toString t.order)]

/-- Projection of a Track row to the fields the catalog sets once at
creation and never rewrites: primary key, title, order, duration and
owning album. -/
def trackKeyFields (t : Track) : Nat × Option String × Option Int × Option Int × Nat :=
  (t.id, t.title, t.order, t.duration, t.albumId)

/-- Projection of an Album row to its identity: primary key, owning
artist and external id. -/
def albumIdFields (al : Album) : Nat × Nat × Option String :=
  (al.id, al.artistId, al.yt_id)

/-- Relation: the albums table of `d2` is that of `d` extended by rows
all owned by artist primary key `pk`. -/
def albumsAppendOwned (pk : Nat) (d d2 : DB) : Prop :=
  ∃ L, d2.albums = d.albums ++ L ∧ ∀ al ∈ L, al.artistId = pk

/-- Relation: the albums table of `d2` is that of `d` extended by rows
each owned by some artist of `arts` whose parse_tracks flag is set. -/
def albumsAppendFromArtists (arts : List Artist) (d d2 : DB) : Prop :=
  ∃ L, d2.albums = d.albums ++ L ∧
    ∀ al ∈ L, ∃ b ∈ arts, al.artistId = b.id ∧ b.parse_tracks = true

/-- Relation: the tracks of `d2` are those of `d`, each with its
creation-time fields (id/title/order/duration/album) intact, plus
possibly some new rows at the end. -/
def tracksExtended (d d2 : DB) : Prop :=
  ∃ L, d2.tracks.map trackKeyFields = d.tracks.map trackKeyFields ++ L

/-- No two track rows share an external id. -/
def tracksKeyUnique (ts : List Track) : Prop :=
  ts.Pairwise (fun t1 t2 => t1.yt_id ≠ t2.yt_id)

/-- Relation: artists unchanged and the image-fetch log only extended. -/
def artistsStableFetchExtended (d d2 : DB) : Prop :=
  d2.artists = d.artists ∧ ∃ L, d2.fetchedImages = d.fetchedImages ++ L

/-- A catalog every call of which raises. -/
def catalogEmpty : Catalog :=
  { get_artist := fun _ => none, get_artist_albums := fun _ _ => none,
    get_album := fun _ => none }

/-- A media fetcher every call of which raises. -/
def mediaEmpty : Media := { extract_info := fun _ => none }

/-- Concrete artist for the C1 counterexample: parse_tracks is False. -/
def artC1 : Artist :=
  { id := 0, name := some "A", bio := none, profile_picture := none, banner := none,
    parse_tracks := false, yt_id := some "YA" }

/-- Concrete store for the C1 counterexample: the parse_tracks=False
artist owns one album with zero tracks. -/
def dbC1 : DB :=
  { artists := [artC1],
    albums := [{ id := 0, title := some "old", cover := some "c", track_count := 0,
                 release_year := none, album_type := "album", artistId := 0,
                 yt_id := some "AL" }],
    tracks := [], nextArtistId := 1, nextAlbumId := 1, nextTrackId := 1, fetchedImages := [] }

/-- Concrete get_album response used by the C1 counterexample. -/
def mdAlbC1 : AlbumMeta :=
  { title := some "new", trackCount := some 7, thumbnails := some [⟨some "cv"⟩],
    tracks := some [] }

/-- Catalog for the C1 counterexample. -/
def catC1 : Catalog := { catalogEmpty with get_album := fun _ => some mdAlbC1 }

/-- Concrete artist for the C3 scenario (parse_tracks True, banner
already set so the banner step is skipped). -/
def artC3 : Artist :=
  { id := 0, name := some "", bio := none, profile_picture := none, banner := some "b",
    parse_tracks := true, yt_id := some "YA" }

/-- Store for the C3 scenario. -/
def dbC3 : DB :=
  { artists := [artC3], albums := [], tracks := [],
    nextArtistId := 1, nextAlbumId := 0, nextTrackId := 0, fetchedImages := [] }

/-- get_artist response for C3: no regular albums, a singles section. -/
def mdArtC3 : ArtistMeta :=
  { name := some "N", description := none, thumbnails := [], albumsResults := [],
    singles := some { browseId := some "SB", params := some "P" } }

/-- The one well-formed singles entry of the C3 scenario. -/
def singleC3 : SingleEntry :=
  { title := some "S1", type := some "Single", browseId := some "B1", year := some 2020,
    thumbnails := some [⟨some "U"⟩] }

/-- Catalog for the C3 scenario. -/
def catC3 : Catalog :=
  { get_artist := fun _ => some mdArtC3,
    get_artist_albums := fun _ _ => some [singleC3],
    get_album := fun _ => none }

/-- Store for the C4 counterexample: two albums with zero tracks. -/
def dbC4 : DB :=
  { artists := [{ id := 0, name := some "A", bio := none, profile_picture := none,
                  banner := none, parse_tracks := true, yt_id := some "YA" }],
    albums := [{ id := 0, title := some "t0", cover := some "c", track_count := 0,
                 release_year := none, album_type := "album", artistId := 0,
                 yt_id := some "A0" },
               { id := 1, title := some "t1", cover := some "c", track_count := 0,
                 release_year := none, album_type := "album", artistId := 0,
                 yt_id := some "A1" }],
    tracks := [], nextArtistId := 1, nextAlbumId := 2, nextTrackId := 0, fetchedImages := [] }

/-- Catalog for the C4 counterexample: fetching the first album raises,
fetching the second would succeed. -/
def catC4 : Catalog :=
  { catalogEmpty with
    get_album := fun yid => if yid == some "A1" then some mdAlbC1 else none }

/-- The first (failing-fetch) album of `dbC4`, as a named row. -/
def albC4a : Album :=
  { id := 0, title := some "t0", cover := some "c", track_count := 0,
    release_year := none, album_type := "album", artistId := 0, yt_id := some "A0" }

/-- Tag view with exactly one featured artist (C5 counterexample). -/
def tagTrackOneFeat : TagTrack :=
  { title := "Song", order := 1, albumTitle := "Alb", albumArtist := "Alice",
    featured := ["Bob"] }

/-- Tag view of the spec's Alice/Bob/Carol example. -/
def tagTrackAliceBobCarol : TagTrack :=
  { title := "Song", order := 1, albumTitle := "Alb", albumArtist := "Alice",
    featured := ["Bob", "Carol"] }

/-- Concrete artist with empty banner used by the C6/C7/C9 witnesses. -/
def artBannerless : Artist :=
  { id := 0, name := some "", bio := none, profile_picture := none, banner := none,
    parse_tracks := false, yt_id := some "YA" }

/-- Store holding only `artBannerless`. -/
def dbBannerless : DB :=
  { artists := [artBannerless], albums := [], tracks := [],
    nextArtistId := 1, nextAlbumId := 0, nextTrackId := 0, fetchedImages := [] }

/-- get_artist response with the three-thumbnail list of C6. -/
def mdArtC6 : ArtistMeta :=
  { name := some "N", description := none,
    thumbnails := [⟨some "a"⟩, ⟨some "b"⟩, ⟨some "c"⟩], albumsResults := [],
    singles := none }

/-- Catalog for the C6 witness. -/
def catC6 : Catalog := { catalogEmpty with get_artist := fun _ => some mdArtC6 }

/-- get_artist response with an empty thumbnails list (C7 witness). -/
def mdArtC7 : ArtistMeta :=
  { name := some "N", description := none, thumbnails := [], albumsResults := [],
    singles := none }

/-- Catalog for the C7 witness. -/
def catC7 : Catalog := { catalogEmpty with get_artist := fun _ => some mdArtC7 }

/-- Artist for the C7 counterexample: empty banner, parse_tracks True. -/
def artC7x : Artist :=
  { id := 0, name := some "", bio := none, profile_picture := none, banner := none,
    parse_tracks := true, yt_id := some "YA" }

/-- Store for the C7 counterexample. -/
def dbC7x : DB :=
  { artists := [artC7x], albums := [], tracks := [],
    nextArtistId := 1, nextAlbumId := 0, nextTrackId := 0, fetchedImages := [] }

/-- get_artist response for the C7 counterexample: empty thumbnails but
a singles section whose processing raises. -/
def mdArtC7x : ArtistMeta :=
  { name := some "N", description := none, thumbnails := [], albumsResults := [],
    singles := some { browseId := some "SB", params := some "P" } }

/-- Catalog for the C7 counterexample. -/
def catC7x : Catalog :=
  { get_artist := fun _ => some mdArtC7x,
    get_artist_albums := fun _ _ => some [singleC3],
    get_album := fun _ => none }

/-- get_artist response with a one-entry thumbnails list (C9 witness). -/
def mdArtC9 : ArtistMeta :=
  { name := some "N", description := none, thumbnails := [⟨some "a"⟩], albumsResults := [],
    singles := none }

/-- Catalog for the C9 witness. -/
def catC9 : Catalog := { catalogEmpty with get_artist := fun _ => some mdArtC9 }

/-- Store for the C10 witness: one existing track owned by album 0. -/
def dbC10 : DB :=
  { artists := [{ id := 0, name := some "A", bio := none, profile_picture := none,
                  banner := none, parse_tracks := true, yt_id := some "YA" }],
    albums := [{ id := 0, title := some "t0", cover := some "c", track_count := 0,
                 release_year := none, album_type := "album", artistId := 0,
                 yt_id := some "A0" },
               { id := 1, title := some "t1", cover := some "c", track_count := 0,
                 release_year := none, album_type := "album", artistId := 0,
                 yt_id := some "A1" }],
    tracks := [{ id := 0, title := some "T", order := some 1, duration := some 100,
                 albumId := 0, featured := [], yt_id := some "V1" }],
    nextArtistId := 1, nextAlbumId := 2, nextTrackId := 1, fetchedImages := [] }

/-- A track entry carrying the already-known external id "V1" but
listed under album 1 (a different album than the existing row's). -/
def entC10 : TrackEntry :=
  { videoId := some "V1", title := some "Other", trackNumber := some 9,
    duration_seconds := some 5, artists := some [{ id := some "FA", name := some "Feat" }] }

/-- Store for the C2 witness: one album with zero tracks. -/
def dbC2 : DB :=
  { artists := [{ id := 0, name := some "A", bio := none, profile_picture := none,
                  banner := none, parse_tracks := true, yt_id := some "YA" }],
    albums := [{ id := 0, title := some "old", cover := none, track_count := 0,
                 release_year := none, album_type := "album", artistId := 0,
                 yt_id := some "A0" }],
    tracks := [], nextArtistId := 1, nextAlbumId := 1, nextTrackId := 0, fetchedImages := [] }

/-- get_album response for the C2 witness: one track, one thumbnail. -/
def mdAlbC2 : AlbumMeta :=
  { title := some "new", trackCount := some 1, thumbnails := some [⟨some "cv"⟩],
    tracks := some [{ videoId := some "V1", title := some "T1", trackNumber := some 1,
                      duration_seconds := some 60, artists := some [] }] }

/-- Catalog for the C2 witness. -/
def catC2 : Catalog := { catalogEmpty with get_album := fun _ => some mdAlbC2 }

/-- Store for the C1 amended-claim witness (same shape as dbC1). -/
def dbC1w : DB := dbC1

/-- Flags used by several witnesses: only --tracks set. -/
def flagsTracksOnly : Flags := ⟨false, false, false, false, true⟩

/-- Flags used by several witnesses: --name and --tracks set. -/
def flagsNameTracks : Flags := ⟨true, false, false, false, true⟩

/-- Flags used by several witnesses: only --name set. -/
def flagsNameOnly : Flags := ⟨true, false, false, false, false⟩

theorem foldU_nil {α : Type} (f : DB → α → DB × Option RunError) (db : DB) :
    foldU f db [] = (db, none) := rfl

theorem foldU_cons_none {α : Type} (f : DB → α → DB × Option RunError) (db db1 : DB)
    (x : α) (xs : List α) (h : f db x = (db1, none)) :
    foldU f db (x :: xs) = foldU f db1 xs := by
  simp [foldU, h]

theorem foldU_cons_some {α : Type} (f : DB → α → DB × Option RunError) (db db1 : DB)
    (x : α) (xs : List α) (e : RunError) (h : f db x = (db1, some e)) :
    foldU f db (x :: xs) = (db1, some e) := by
  simp [foldU, h]

theorem foldU_rel {α : Type} (f : DB → α → DB × Option RunError) (R : DB → DB → Prop)
    (hrefl : ∀ d, R d d) (htrans : ∀ d1 d2 d3, R d1 d2 → R d2 d3 → R d1 d3) :
    ∀ (xs : List α) (db : DB), (∀ d x, x ∈ xs → R d (f d x).1) → R db (foldU f db xs).1
  | [], db, _ => hrefl db
  | x :: xs, db, hstep => by
    rcases hfx : f db x with ⟨db1, e⟩
    cases e with
    | none =>
      rw [foldU_cons_none f db db1 x xs hfx]
      have h1 : R db db1 := by
        have h2 := hstep db x (List.mem_cons_self x xs)
        rwa [hfx] at h2
      exact htrans _ _ _ h1
        (foldU_rel f R hrefl htrans xs db1 (fun d y hy => hstep d y (List.mem_cons_of_mem x hy)))
    | some err =>
      rw [foldU_cons_some f db db1 x xs err hfx]
      have h2 := hstep db x (List.mem_cons_self x xs)
      rwa [hfx] at h2

theorem albumEntryStep_albums (db : DB) (pk : Nat) (e : AlbumResult) :
    ∃ L, (albumEntryStep db pk e).1.albums = db.albums ++ L ∧ ∀ al ∈ L, al.artistId = pk := by
  by_cases hex : (db.albums.any fun al => al.yt_id == e.browseId) = true
  · exact ⟨[], by simp [albumEntryStep, hex], by simp⟩
  · rcases hty : e.type with _ | y
    · exact ⟨[], by simp [albumEntryStep, hex, hty], by simp⟩
    · rcases hlast : (e.thumbnails.getD [Thumb.mk none]).getLast? with _ | t
      · refine ⟨[{ id := db.nextAlbumId, title := e.title, cover := none, track_count := 0,
                   release_year := some y, album_type := "album", artistId := pk,
                   yt_id := e.browseId }], by simp [albumEntryStep, hex, hty, hlast], ?_⟩
        intro al hal
        simp only [List.mem_singleton] at hal
        subst hal
        rfl
      · refine ⟨[{ id := db.nextAlbumId, title := e.title,
                   cover := (download_and_save_image none t.url db.fetchedImages).1,
                   track_count := 0, release_year := some y, album_type := "album",
                   artistId := pk, yt_id := e.browseId }],
          by simp [albumEntryStep, hex, hty, hlast], ?_⟩
        intro al hal
        simp only [List.mem_singleton] at hal
        subst hal
        rfl

theorem albumsAppendOwned_refl (pk : Nat) (d : DB) : albumsAppendOwned pk d d :=
  ⟨[], by simp, by simp⟩

theorem albumsAppendOwned_trans (pk : Nat) (d1 d2 d3 : DB)
    (h1 : albumsAppendOwned pk d1 d2) (h2 : albumsAppendOwned pk d2 d3) :
    albumsAppendOwned pk d1 d3 := by
  rcases h1 with ⟨L1, e1, o1⟩
  rcases h2 with ⟨L2, e2, o2⟩
  refine ⟨L1 ++ L2, by rw [e2, e1, List.append_assoc], ?_⟩
  intro al hal
  rcases List.mem_append.mp hal with h | h
  · exact o1 al h
  · exact o2 al h

theorem albumFields_no_type : "type" ∉ albumModelFieldNames := by decide

theorem singleEntryStep_albums (db : DB) (pk : Nat) (e : SingleEntry) :
    ∃ L, (singleEntryStep db pk e).1.albums = db.albums ++ L ∧ ∀ al ∈ L, al.artistId = pk := by
  rcases hty : e.type with _ | ty
  · exact ⟨[], by simp [singleEntryStep, hty], by simp⟩
  · rcases hyr : e.year with _ | y
    · exact ⟨[], by simp [singleEntryStep, hty, hyr], by simp⟩
    · exact ⟨[], by simp [singleEntryStep, hty, hyr, albumFields_no_type], by simp⟩

theorem singlesStep_albums (cat : Catalog) (flags : Flags) (db : DB) (pk : Nat)
    (s : Option SinglesSection) : albumsAppendOwned pk db (singlesStep cat flags db pk s).1 := by
  rcases s with _ | sec
  · exact albumsAppendOwned_refl pk db
  · by_cases hc : truthyStr sec.browseId = true ∧ flags.tracks = true
    · rcases hga : cat.get_artist_albums sec.browseId sec.params with _ | singles
      · have hr : singlesStep cat flags db pk (some sec) = (db, some RunError.fetchError) := by
          simp [singlesStep, hc.1, hc.2, hga]
        rw [hr]
        exact albumsAppendOwned_refl pk db
      · have hr : singlesStep cat flags db pk (some sec) =
            foldU (fun d e => singleEntryStep d pk e) db singles := by
          simp [singlesStep, hc.1, hc.2, hga]
        rw [hr]
        exact foldU_rel _ _ (albumsAppendOwned_refl pk) (albumsAppendOwned_trans pk) singles db
          (fun d x _ => singleEntryStep_albums d pk x)
    · have hr : singlesStep cat flags db pk (some sec) = (db, none) := by
        simp only [singlesStep]
        rw [if_neg hc]
      rw [hr]
      exact albumsAppendOwned_refl pk db

theorem parseTracksStage_false (cat : Catalog) (flags : Flags) (db : DB) (a : Artist)
    (md : ArtistMeta) (h : a.parse_tracks = false) :
    parseTracksStage cat flags db a md = (db, none) := by
  simp [parseTracksStage, h]

theorem parseTracksStage_albums (cat : Catalog) (flags : Flags) (db : DB) (a : Artist)
    (md : ArtistMeta) : albumsAppendOwned a.id db (parseTracksStage cat flags db a md).1 := by
  by_cases hpt : a.parse_tracks = true
  · have hstep : albumsAppendOwned a.id db
        (foldU (fun d e => albumEntryStep d a.id e) db md.albumsResults).1 :=
      foldU_rel _ _ (albumsAppendOwned_refl a.id) (albumsAppendOwned_trans a.id)
        md.albumsResults db (fun d x _ => albumEntryStep_albums d a.id x)
    rcases hfold : foldU (fun d e => albumEntryStep d a.id e) db md.albumsResults with ⟨db1, er⟩
    rw [hfold] at hstep
    cases er with
    | none =>
      have hr : parseTracksStage cat flags db a md = singlesStep cat flags db1 a.id md.singles := by
        simp [parseTracksStage, hpt, hfold]
      rw [hr]
      exact albumsAppendOwned_trans a.id db db1 _ hstep
        (singlesStep_albums cat flags db1 a.id md.singles)
    | some e =>
      have hr : parseTracksStage cat flags db a md = (db1, some e) := by
        simp [parseTracksStage, hpt, hfold]
      rw [hr]
      exact hstep
  · have hpf : a.parse_tracks = false := by simpa using hpt
    rw [parseTracksStage_false cat flags db a md hpf]
    exact albumsAppendOwned_refl a.id db

theorem parseTracksStage_albums_from (cat : Catalog) (flags : Flags) (db0 db : DB) (a : Artist)
    (md : ArtistMeta) (hba : db.albums = db0.albums) :
    ∃ L, (parseTracksStage cat flags db a md).1.albums = db0.albums ++ L ∧
      ∀ al ∈ L, al.artistId = a.id ∧ a.parse_tracks = true := by
  by_cases hpt : a.parse_tracks = true
  · rcases parseTracksStage_albums cat flags db a md with ⟨L, hL, ho⟩
    exact ⟨L, by rw [hL, hba], fun al hal => ⟨ho al hal, hpt⟩⟩
  · have hpf : a.parse_tracks = false := by simpa using hpt
    rw [parseTracksStage_false cat flags db a md hpf]
    exact ⟨[], by simp [hba], by simp⟩

theorem artistEnrichStep_albums (cat : Catalog) (flags : Flags) (db : DB) (art : Artist) :
    ∃ L, (artistEnrichStep cat flags db art).1.albums = db.albums ++ L ∧
      ∀ al ∈ L, al.artistId = art.id ∧ art.parse_tracks = true := by
  rcases hga : cat.get_artist art.yt_id with _ | md
  · exact ⟨[], by simp [artistEnrichStep, hga], by simp⟩
  · simp only [artistEnrichStep, hga]
    split
    · split
      · exact ⟨[], by simp [saveArtist], by simp⟩
      · exact parseTracksStage_albums_from cat flags db _ _ md (by simp [saveArtist])
    · exact parseTracksStage_albums_from cat flags db _ _ md (by simp [saveArtist])

theorem albumsAppendFromArtists_refl (arts : List Artist) (d : DB) :
    albumsAppendFromArtists arts d d := ⟨[], by simp, by simp⟩

theorem albumsAppendFromArtists_trans (arts : List Artist) (d1 d2 d3 : DB)
    (h1 : albumsAppendFromArtists arts d1 d2) (h2 : albumsAppendFromArtists arts d2 d3) :
    albumsAppendFromArtists arts d1 d3 := by
  rcases h1 with ⟨L1, e1, o1⟩
  rcases h2 with ⟨L2, e2, o2⟩
  refine ⟨L1 ++ L2, by rw [e2, e1, List.append_assoc], ?_⟩
  intro al hal
  rcases List.mem_append.mp hal with h | h
  · exact o1 al h
  · exact o2 al h

theorem artistPass_albums (cat : Catalog) (flags : Flags) (db : DB) :
    albumsAppendFromArtists db.artists db (artistPass cat flags db).1 := by
  unfold artistPass
  split
  · refine foldU_rel _ _ (albumsAppendFromArtists_refl db.artists)
      (albumsAppendFromArtists_trans db.artists) _ db (fun d x hx => ?_)
    rcases artistEnrichStep_albums cat flags d x with ⟨L, hL, ho⟩
    exact ⟨L, hL, fun al hal =>
      ⟨x, List.mem_of_mem_filter hx, (ho al hal).1, (ho al hal).2⟩⟩
  · exact albumsAppendFromArtists_refl db.artists db

theorem ppStep_albums (media : Media) (db : DB) (a : Artist) :
    (ppStep media db a).1.albums = db.albums := by
  rcases hid : a.yt_id with _ | yid
  · simp [ppStep, hid]
  · rcases hx : media.extract_info
        (if yid.startsWith "https://" then yid else "https://youtube.com/channel/" ++ yid)
      with _ | info
    · simp [ppStep, hid, hx]
    · rcases hth : info.thumbnails with _ | ts
      · simp [ppStep, hid, hx, hth]
      · cases ts with
        | nil => simp [ppStep, hid, hx, hth]
        | cons t rest => simp [ppStep, hid, hx, hth, saveArtist]

theorem ppPass_albums (media : Media) (flags : Flags) (db : DB) :
    (ppPass media flags db).1.albums = db.albums := by
  unfold ppPass
  split
  · have h := foldU_rel (ppStep media) (fun d d2 => d2.albums = d.albums)
      (fun d => rfl) (fun d1 d2 d3 h1 h2 => h2.trans h1)
      (db.artists.filter (fun a => a.profile_picture == none)) db
      (fun d x _ => ppStep_albums media d x)
    exact h
  · rfl

theorem foldU_pre {α β : Type} (f : DB → α → DB × Option RunError) (g : DB → β)
    (xs : List α) (db : DB) (h : ∀ d x, x ∈ xs → g (f d x).1 = g d) :
    g (foldU f db xs).1 = g db :=
  foldU_rel f (fun d d2 => g d2 = g d) (fun d => rfl) (fun d1 d2 d3 h1 h2 => h2.trans h1)
    xs db h

theorem saveAlbumTitleCount_idFields (db : DB) (pk : Nat) (t : Option String) (c : Int) :
    (saveAlbumTitleCount db pk t c).albums.map albumIdFields = db.albums.map albumIdFields := by
  simp only [saveAlbumTitleCount, List.map_map]
  refine List.map_congr_left ?_
  intro b _
  by_cases h : b.id = pk <;> simp [albumIdFields, h, Function.comp]

theorem saveAlbumCoverRow_idFields (db : DB) (pk : Nat) (cv : Option String) :
    (saveAlbumCoverRow db pk cv).albums.map albumIdFields = db.albums.map albumIdFields := by
  simp only [saveAlbumCoverRow, List.map_map]
  refine List.map_congr_left ?_
  intro b _
  by_cases h : b.id = pk <;> simp [albumIdFields, h, Function.comp]

theorem albumCoverStep_idFields (db1 : DB) (alb : Album) (md : AlbumMeta) :
    (albumCoverStep db1 alb md).1.albums.map albumIdFields = db1.albums.map albumIdFields := by
  by_cases hcov : alb.cover = none
  · rcases hlast : (md.thumbnails.getD [Thumb.mk none]).getLast? with _ | t
    · simp [albumCoverStep, hcov, hlast]
    · simp [albumCoverStep, hcov, hlast, saveAlbumCoverRow_idFields]
  · simp [albumCoverStep, hcov]

theorem addFeaturedRow_albums (db : DB) (tp ap : Nat) :
    (addFeaturedRow db tp ap).albums = db.albums := rfl

theorem trackArtistStep_albums (db : DB) (aid tp : Nat) (ta : TrackArtist) :
    (trackArtistStep db aid tp ta).1.albums = db.albums := by
  unfold trackArtistStep
  split
  · split
    · rfl
    · split
      · split
        · rfl
        · rfl
      · rfl
  · rfl

theorem processTrackEntry_albums (db : DB) (albumPk aId : Nat) (e : TrackEntry) :
    (processTrackEntry db albumPk aId e).1.albums = db.albums := by
  rcases hf : db.tracks.find? (fun t => t.yt_id == e.videoId) with _ | t
  · rcases ha : e.artists with _ | tas
    · simp [processTrackEntry, hf, ha]
    · simp only [processTrackEntry, hf, ha]
      exact (foldU_pre _ (fun d => d.albums) tas _
        (fun d x _ => trackArtistStep_albums d aId _ x)).trans rfl
  · rcases ha : e.artists with _ | tas
    · simp [processTrackEntry, hf, ha]
    · simp only [processTrackEntry, hf, ha]
      exact (foldU_pre _ (fun d => d.albums) tas _
        (fun d x _ => trackArtistStep_albums d aId _ x)).trans rfl

theorem processAlbumTracks_albumIdFields (cat : Catalog) (db : DB) (alb : Album) :
    (processAlbumTracks cat db alb).1.albums.map albumIdFields =
      db.albums.map albumIdFields := by
  rcases hga : cat.get_album alb.yt_id with _ | md
  · simp [processAlbumTracks, hga]
  · rcases hcs : albumCoverStep (saveAlbumTitleCount db alb.id md.title (md.trackCount.getD 0))
        alb md with ⟨db2, er⟩
    have h2 : db2.albums.map albumIdFields = db.albums.map albumIdFields := by
      have h1 := albumCoverStep_idFields
        (saveAlbumTitleCount db alb.id md.title (md.trackCount.getD 0)) alb md
      rw [hcs] at h1
      exact h1.trans (saveAlbumTitleCount_idFields db alb.id md.title (md.trackCount.getD 0))
    cases er with
    | some e =>
      have hr : processAlbumTracks cat db alb = (db2, some e) := by
        simp [processAlbumTracks, hga, hcs]
      rw [hr]
      exact h2
    | none =>
      have hr : processAlbumTracks cat db alb =
          foldU (fun d e => processTrackEntry d alb.id alb.artistId e) db2
            (md.tracks.getD []) := by
        simp [processAlbumTracks, hga, hcs]
      rw [hr]
      have h3 := foldU_pre (fun d e => processTrackEntry d alb.id alb.artistId e)
        (fun d => d.albums) (md.tracks.getD []) db2
        (fun d x _ => processTrackEntry_albums d alb.id alb.artistId x)
      simp only at h3
      rw [h3]
      exact h2

theorem tracksPass_albumIdFields (cat : Catalog) (db : DB) :
    (tracksPass cat db).1.albums.map albumIdFields = db.albums.map albumIdFields := by
  unfold tracksPass
  exact foldU_pre _ (fun d => d.albums.map albumIdFields) _ db
    (fun d x _ => processAlbumTracks_albumIdFields cat d x)

theorem tracksPassRun_albumIdFields (cat : Catalog) (flags : Flags) (db : DB) :
    (tracksPassRun cat flags db).1.albums.map albumIdFields = db.albums.map albumIdFields := by
  unfold tracksPassRun
  split
  · exact tracksPass_albumIdFields cat db
  · rfl

/-- C1 counterexample: in `dbC1` the only artist has parse_tracks=false
and owns one album (zero tracks) with title "old" and track_count 0;
running the driver with only the tracks pass rewrites that album's
title to "new" and track_count to 7 from the catalog response, so a
reconciliation run DOES update fields of an Album owned by a
parse_tracks=false artist (the tracks pass selects albums by
zero-tracks only, ignoring the owner's parse_tracks flag). -/
theorem c1_counterexample :
    artC1.parse_tracks = false ∧ artC1 ∈ dbC1.artists ∧
    dbC1.albums.map (fun al => (al.artistId, al.title, al.track_count)) =
      [(0, some "old", (0 : Int))] ∧
    (runDriver catC1 mediaEmpty flagsTracksOnly dbC1).1.albums.map
      (fun al => (al.artistId, al.title, al.track_count)) = [(0, some "new", (7 : Int))] := by
  decide

/-- C1 (amended): for every artist with parse_tracks=false (and no other
artist row sharing its primary key with the flag set), a reconciliation
run never CREATES a new Album owned by that artist — every album of the
final state owned by it is a pre-existing row (same pk, owner and
external id); and when the tracks pass is not requested, the albums
owned by that artist are left entirely unchanged.  (The tracks pass,
however, may update fields of an existing zero-track Album owned by
such an artist — see the counterexample.) -/
theorem c1_amended (cat : Catalog) (media : Media) (flags : Flags) (db : DB) (a : Artist)
    (ha : a ∈ db.artists) (hpt : a.parse_tracks = false)
    (huniq : ∀ b ∈ db.artists, b.id = a.id → b.parse_tracks = false) :
    (∀ al ∈ (runDriver cat media flags db).1.albums, al.artistId = a.id →
      ∃ al0 ∈ db.albums, al0.id = al.id ∧ al0.artistId = a.id ∧ al0.yt_id = al.yt_id) ∧
    (flags.tracks = false →
      (runDriver cat media flags db).1.albums.filter (fun al => al.artistId == a.id) =
        db.albums.filter (fun al => al.artistId == a.id)) := by
  rcases hap : artistPass cat flags db with ⟨db1, e1⟩
  have hL : albumsAppendFromArtists db.artists db db1 := by
    have h := artistPass_albums cat flags db
    rw [hap] at h
    exact h
  rcases hL with ⟨L, hL1, hLo⟩
  have hLnotA : ∀ al ∈ L, al.artistId ≠ a.id := by
    intro al hal heq
    rcases hLo al hal with ⟨b, hb, hbid, hbpt⟩
    have hf : b.parse_tracks = false := huniq b hb (hbid.symm.trans heq)
    rw [hf] at hbpt
    exact absurd hbpt (by simp)
  have hfL : L.filter (fun al => al.artistId == a.id) = [] := by
    rw [List.filter_eq_nil_iff]
    intro al hal
    simpa using hLnotA al hal
  have haux : ∀ albs : List Album,
      albs.map albumIdFields = (db.albums ++ L).map albumIdFields →
      ∀ al ∈ albs, al.artistId = a.id →
        ∃ al0 ∈ db.albums, al0.id = al.id ∧ al0.artistId = a.id ∧ al0.yt_id = al.yt_id := by
    intro albs halbs al hmem hown
    have hin : albumIdFields al ∈ (db.albums ++ L).map albumIdFields := by
      rw [← halbs]
      exact List.mem_map_of_mem _ hmem
    rw [List.map_append] at hin
    rcases List.mem_append.mp hin with h | h
    · rcases List.mem_map.mp h with ⟨al0, hal0, hfe⟩
      have h1 : al0.id = al.id ∧ al0.artistId = al.artistId ∧ al0.yt_id = al.yt_id := by
        simpa [albumIdFields, Prod.ext_iff] using hfe
      exact ⟨al0, hal0, h1.1, by rw [h1.2.1, hown], h1.2.2⟩
    · rcases List.mem_map.mp h with ⟨al0, hal0, hfe⟩
      have h1 : al0.artistId = al.artistId := by
        have h2 : al0.id = al.id ∧ al0.artistId = al.artistId ∧ al0.yt_id = al.yt_id := by
          simpa [albumIdFields, Prod.ext_iff] using hfe
        exact h2.2.1
      exact absurd (h1.trans hown) (hLnotA al0 hal0)
  have hfilterSplit : (db.albums ++ L).filter (fun al => al.artistId == a.id) =
      db.albums.filter (fun al => al.artistId == a.id) := by
    rw [List.filter_append, hfL, List.append_nil]
  cases e1 with
  | some e =>
    have hrun : runDriver cat media flags db = (db1, some e) := by
      simp [runDriver, hap]
    rw [hrun]
    exact ⟨haux db1.albums (by rw [hL1]), fun _ => by rw [hL1]; exact hfilterSplit⟩
  | none =>
    rcases hpp : ppPass media flags db1 with ⟨db2, e2⟩
    have hpp_alb : db2.albums = db1.albums := by
      have h := ppPass_albums media flags db1
      rw [hpp] at h
      exact h
    cases e2 with
    | some e =>
      have hrun : runDriver cat media flags db = (db2, some e) := by
        simp [runDriver, hap, hpp]
      rw [hrun]
      exact ⟨haux db2.albums (by rw [hpp_alb, hL1]),
        fun _ => by rw [hpp_alb, hL1]; exact hfilterSplit⟩
    | none =>
      have hrun : runDriver cat media flags db = tracksPassRun cat flags db2 := by
        simp [runDriver, hap, hpp]
      rw [hrun]
      constructor
      · refine haux (tracksPassRun cat flags db2).1.albums ?_
        rw [tracksPassRun_albumIdFields, hpp_alb, hL1]
      · intro htr
        have hrun2 : tracksPassRun cat flags db2 = (db2, none) := by
          simp [tracksPassRun, htr]
        rw [hrun2]
        rw [hpp_alb, hL1]
        exact hfilterSplit

/-- C1 witness: the amended theorem applied to the concrete store of the
counterexample (sound since the tracks pass only updates, never
creates, albums of the parse_tracks=false artist). -/
theorem c1_amended_witness :
    (∀ al ∈ (runDriver catC1 mediaEmpty flagsTracksOnly dbC1).1.albums,
      al.artistId = artC1.id →
      ∃ al0 ∈ dbC1.albums, al0.id = al.id ∧ al0.artistId = artC1.id ∧ al0.yt_id = al.yt_id) ∧
    (flagsTracksOnly.tracks = false →
      (runDriver catC1 mediaEmpty flagsTracksOnly dbC1).1.albums.filter
          (fun al => al.artistId == artC1.id) =
        dbC1.albums.filter (fun al => al.artistId == artC1.id)) :=
  c1_amended catC1 mediaEmpty flagsTracksOnly dbC1 artC1 (by decide) (by decide) (by decide)

theorem download_log_extends (slot url : Option String) (log : List String) :
    ∃ L, (download_and_save_image slot url log).2 = log ++ L := by
  rcases url with _ | u
  · exact ⟨[], by simp [download_and_save_image]⟩
  · by_cases h : u = ""
    · exact ⟨[], by simp [download_and_save_image, h]⟩
    · exact ⟨[u], by simp [download_and_save_image, h]⟩

theorem sideStable_refl (d : DB) :
    d.artists = d.artists ∧ d.tracks = d.tracks ∧
      ∃ L, d.fetchedImages = d.fetchedImages ++ L :=
  ⟨rfl, rfl, ⟨[], by simp⟩⟩

theorem albumEntryStep_stable (db : DB) (pk : Nat) (e : AlbumResult) :
    (albumEntryStep db pk e).1.artists = db.artists ∧
    (albumEntryStep db pk e).1.tracks = db.tracks ∧
    ∃ L, (albumEntryStep db pk e).1.fetchedImages = db.fetchedImages ++ L := by
  by_cases hex : (db.albums.any fun al => al.yt_id == e.browseId) = true
  · refine ⟨by simp [albumEntryStep, hex], by simp [albumEntryStep, hex],
      ⟨[], by simp [albumEntryStep, hex]⟩⟩
  · rcases hty : e.type with _ | y
    · refine ⟨by simp [albumEntryStep, hex, hty], by simp [albumEntryStep, hex, hty],
        ⟨[], by simp [albumEntryStep, hex, hty]⟩⟩
    · rcases hlast : (e.thumbnails.getD [Thumb.mk none]).getLast? with _ | t
      · refine ⟨by simp [albumEntryStep, hex, hty, hlast],
          by simp [albumEntryStep, hex, hty, hlast],
          ⟨[], by simp [albumEntryStep, hex, hty, hlast]⟩⟩
      · rcases download_log_extends none t.url db.fetchedImages with ⟨L, hL⟩
        exact ⟨by simp [albumEntryStep, hex, hty, hlast],
          by simp [albumEntryStep, hex, hty, hlast],
          ⟨L, by simp [albumEntryStep, hex, hty, hlast, hL]⟩⟩

theorem singleEntryStep_stable (db : DB) (pk : Nat) (e : SingleEntry) :
    (singleEntryStep db pk e).1.artists = db.artists ∧
    (singleEntryStep db pk e).1.tracks = db.tracks ∧
    ∃ L, (singleEntryStep db pk e).1.fetchedImages = db.fetchedImages ++ L := by
  rcases hty : e.type with _ | ty
  · exact ⟨by simp [singleEntryStep, hty], by simp [singleEntryStep, hty],
      ⟨[], by simp [singleEntryStep, hty]⟩⟩
  · rcases hyr : e.year with _ | y
    · exact ⟨by simp [singleEntryStep, hty, hyr], by simp [singleEntryStep, hty, hyr],
        ⟨[], by simp [singleEntryStep, hty, hyr]⟩⟩
    · exact ⟨by simp [singleEntryStep, hty, hyr, albumFields_no_type],
        by simp [singleEntryStep, hty, hyr, albumFields_no_type],
        ⟨[], by simp [singleEntryStep, hty, hyr, albumFields_no_type]⟩⟩

theorem foldU_sideStable {α : Type} (f : DB → α → DB × Option RunError)
    (hstep : ∀ d x, (f d x).1.artists = d.artists ∧ (f d x).1.tracks = d.tracks ∧
      ∃ L, (f d x).1.fetchedImages = d.fetchedImages ++ L)
    (xs : List α) (db : DB) :
    (foldU f db xs).1.artists = db.artists ∧ (foldU f db xs).1.tracks = db.tracks ∧
      ∃ L, (foldU f db xs).1.fetchedImages = db.fetchedImages ++ L := by
  refine foldU_rel f (fun d d2 => d2.artists = d.artists ∧ d2.tracks = d.tracks ∧
    ∃ L, d2.fetchedImages = d.fetchedImages ++ L) (fun d => sideStable_refl d) ?_ xs db
    (fun d x _ => hstep d x)
  intro d1 d2 d3 h1 h2
  rcases h1 with ⟨a1, t1, L1, f1⟩
  rcases h2 with ⟨a2, t2, L2, f2⟩
  exact ⟨a2.trans a1, t2.trans t1, ⟨L1 ++ L2, by rw [f2, f1, List.append_assoc]⟩⟩

theorem singlesStep_stable (cat : Catalog) (flags : Flags) (db : DB) (pk : Nat)
    (s : Option SinglesSection) :
    (singlesStep cat flags db pk s).1.artists = db.artists ∧
    (singlesStep cat flags db pk s).1.tracks = db.tracks ∧
    ∃ L, (singlesStep cat flags db pk s).1.fetchedImages = db.fetchedImages ++ L := by
  rcases s with _ | sec
  · exact sideStable_refl db
  · by_cases hc : truthyStr sec.browseId = true ∧ flags.tracks = true
    · rcases hga : cat.get_artist_albums sec.browseId sec.params with _ | singles
      · have hr : singlesStep cat flags db pk (some sec) = (db, some RunError.fetchError) := by
          simp [singlesStep, hc.1, hc.2, hga]
        rw [hr]
        exact sideStable_refl db
      · have hr : singlesStep cat flags db pk (some sec) =
            foldU (fun d e => singleEntryStep d pk e) db singles := by
          simp [singlesStep, hc.1, hc.2, hga]
        rw [hr]
        exact foldU_sideStable _ (fun d x => singleEntryStep_stable d pk x) singles db
    · have hr : singlesStep cat flags db pk (some sec) = (db, none) := by
        simp only [singlesStep]
        rw [if_neg hc]
      rw [hr]
      exact sideStable_refl db

theorem parseTracksStage_stable (cat : Catalog) (flags : Flags) (db : DB) (a : Artist)
    (md : ArtistMeta) :
    (parseTracksStage cat flags db a md).1.artists = db.artists ∧
    (parseTracksStage cat flags db a md).1.tracks = db.tracks ∧
    ∃ L, (parseTracksStage cat flags db a md).1.fetchedImages = db.fetchedImages ++ L := by
  by_cases hpt : a.parse_tracks = true
  · have hstep := foldU_sideStable (fun d e => albumEntryStep d a.id e)
      (fun d x => albumEntryStep_stable d a.id x) md.albumsResults db
    rcases hfold : foldU (fun d e => albumEntryStep d a.id e) db md.albumsResults with ⟨db1, er⟩
    rw [hfold] at hstep
    cases er with
    | none =>
      have hr : parseTracksStage cat flags db a md = singlesStep cat flags db1 a.id md.singles := by
        simp [parseTracksStage, hpt, hfold]
      rw [hr]
      rcases hstep with ⟨a1, t1, L1, f1⟩
      rcases singlesStep_stable cat flags db1 a.id md.singles with ⟨a2, t2, L2, f2⟩
      exact ⟨a2.trans a1, t2.trans t1, ⟨L1 ++ L2, by rw [f2, f1, List.append_assoc]⟩⟩
    | some e =>
      have hr : parseTracksStage cat flags db a md = (db1, some e) := by
        simp [parseTracksStage, hpt, hfold]
      rw [hr]
      exact hstep
  · have hpf : a.parse_tracks = false := by simpa using hpt
    rw [parseTracksStage_false cat flags db a md hpf]
    exact sideStable_refl db

theorem saveArtist_row_banner (db : DB) (a : Artist) :
    ∀ row ∈ (saveArtist db a).artists, row.id = a.id → row.banner = a.banner := by
  intro row hrow hid
  unfold saveArtist at hrow
  simp only [List.mem_map] at hrow
  rcases hrow with ⟨b, hb, hbe⟩
  by_cases h : b.id = a.id
  · rw [if_pos h] at hbe
    rw [← hbe]
  · rw [if_neg h] at hbe
    rw [← hbe] at hid
    exact absurd hid h

theorem parseTracksStage_post (cat : Catalog) (flags : Flags) (dbX : DB) (aX : Artist)
    (md : ArtistMeta) (base : List String) (u : String) (i : Nat) (v : Option String)
    (hfetch : dbX.fetchedImages = base ++ [u])
    (hbanner : ∀ row ∈ dbX.artists, row.id = i → row.banner = v) :
    (∃ rest, (parseTracksStage cat flags dbX aX md).1.fetchedImages = base ++ u :: rest) ∧
    ∀ row ∈ (parseTracksStage cat flags dbX aX md).1.artists, row.id = i → row.banner = v := by
  rcases parseTracksStage_stable cat flags dbX aX md with ⟨hA, hT, L, hF⟩
  constructor
  · exact ⟨L, by rw [hF, hfetch, List.append_assoc]; rfl⟩
  · rw [hA]
    exact hbanner

/-- C6: for every artist with an empty banner whose get_artist response
has thumbnails [a, b, c], the banner enrichment fetches exactly url "b"
(appended next to the image-fetch log) and attaches it as the artist
row's banner — index 1, not 0 or 2. -/
theorem c6_banner_second_thumbnail (cat : Catalog) (flags : Flags) (db : DB) (art : Artist)
    (md : ArtistMeta) (hmd : cat.get_artist art.yt_id = some md)
    (hth : md.thumbnails = [⟨some "a"⟩, ⟨some "b"⟩, ⟨some "c"⟩])
    (hb : art.banner = none) :
    (∃ rest, (artistEnrichStep cat flags db art).1.fetchedImages =
      db.fetchedImages ++ "b" :: rest) ∧
    ∀ row ∈ (artistEnrichStep cat flags db art).1.artists, row.id = art.id →
      row.banner = some "b" := by
  simp [artistEnrichStep, hmd, hth, hb, download_and_save_image]
  exact parseTracksStage_post cat flags _ _ md db.fetchedImages "b" art.id (some "b")
    (by simp [saveArtist]) (saveArtist_row_banner _ _)

/-- C6 witness: the theorem applied to the concrete bannerless artist and
the three-thumbnail response. -/
theorem c6_banner_second_thumbnail_witness :
    (∃ rest, (artistEnrichStep catC6 flagsNameOnly dbBannerless artBannerless).1.fetchedImages =
      dbBannerless.fetchedImages ++ "b" :: rest) ∧
    ∀ row ∈ (artistEnrichStep catC6 flagsNameOnly dbBannerless artBannerless).1.artists,
      row.id = artBannerless.id → row.banner = some "b" :=
  c6_banner_second_thumbnail catC6 flagsNameOnly dbBannerless artBannerless mdArtC6
    rfl rfl rfl

/-- C7 counterexample: an artist with empty banner whose response has an
empty thumbnails list, but parse_tracks=true and a singles section
while --tracks is set: the enrichment step raises (TypeError from the
singles Album.objects.create call), so the pass does NOT always
complete without raising — though the banner does remain empty. -/
theorem c7_counterexample :
    artC7x.banner = none ∧ mdArtC7x.thumbnails = [] ∧
    (artistEnrichStep catC7x flagsNameTracks dbC7x artC7x).2 = some RunError.typeError ∧
    (artistEnrichStep catC7x flagsNameTracks dbC7x artC7x).1.artists.map
      (fun a => a.banner) = [none] := by
  decide

/-- C7 (amended): for an artist with an empty banner whose response has
an empty thumbnails list, the banner step raises nothing and the banner
stays empty; and when the artist's parse_tracks is false (so album and
singles discovery is skipped) the whole enrichment step completes
without raising. -/
theorem c7_amended (cat : Catalog) (flags : Flags) (db : DB) (art : Artist) (md : ArtistMeta)
    (hmd : cat.get_artist art.yt_id = some md) (hth : md.thumbnails = [])
    (hb : art.banner = none) (hpt : art.parse_tracks = false) :
    (artistEnrichStep cat flags db art).2 = none ∧
    ∀ row ∈ (artistEnrichStep cat flags db art).1.artists, row.id = art.id →
      row.banner = none := by
  simp [artistEnrichStep, hmd, hth, hb, parseTracksStage_false, hpt]
  exact saveArtist_row_banner _ _

/-- C7 witness: the amended theorem applied to the concrete bannerless
artist and the empty-thumbnails response. -/
theorem c7_amended_witness :
    (artistEnrichStep catC7 flagsNameOnly dbBannerless artBannerless).2 = none ∧
    ∀ row ∈ (artistEnrichStep catC7 flagsNameOnly dbBannerless artBannerless).1.artists,
      row.id = artBannerless.id → row.banner = none :=
  c7_amended catC7 flagsNameOnly dbBannerless artBannerless mdArtC7 rfl rfl rfl rfl

/-- C9: for every artist with an empty banner whose get_artist response
has a thumbnails list of length exactly one, the banner step's read of
index 1 raises IndexError (the guard only checks non-emptiness), and
the enrichment sweep aborts there: the remaining artists of the sweep
are not processed. -/
theorem c9_single_thumbnail_index_error (cat : Catalog) (flags : Flags) (db : DB)
    (art : Artist) (md : ArtistMeta) (t0 : Thumb) (rest : List Artist)
    (hmd : cat.get_artist art.yt_id = some md) (hth : md.thumbnails = [t0])
    (hb : art.banner = none) :
    (artistEnrichStep cat flags db art).2 = some RunError.indexError ∧
    foldU (artistEnrichStep cat flags) db (art :: rest) =
      ((artistEnrichStep cat flags db art).1, some RunError.indexError) := by
  have h1 : artistEnrichStep cat flags db art =
      (saveArtist db { art with name := md.name, bio := md.description },
        some RunError.indexError) := by
    simp [artistEnrichStep, hmd, hth, hb]
  exact ⟨by rw [h1], foldU_cons_some _ _ _ _ _ _ (by rw [h1])⟩

/-- C9 witness: the theorem applied to the concrete bannerless artist and
the one-thumbnail response. -/
theorem c9_single_thumbnail_index_error_witness :
    (artistEnrichStep catC9 flagsNameOnly dbBannerless artBannerless).2 =
      some RunError.indexError ∧
    foldU (artistEnrichStep catC9 flagsNameOnly) dbBannerless (artBannerless :: []) =
      ((artistEnrichStep catC9 flagsNameOnly dbBannerless artBannerless).1,
        some RunError.indexError) :=
  c9_single_thumbnail_index_error catC9 flagsNameOnly dbBannerless artBannerless mdArtC9
    ⟨some "a"⟩ [] rfl rfl rfl

/-- C3 (the code evaluated at the failing input): the Album model has no
field named `type`, so the singles loop's Album.objects.create raises
TypeError on its first entry; with an artist whose singles listing
holds one well-formed entry, the whole run aborts with that TypeError
and no Album row is created at all (in particular no dedup question
ever arises — the loop also contains no exists-check). -/
theorem c3_singles_create_raises :
    ("type" ∉ albumModelFieldNames) ∧
    catC3.get_artist_albums (some "SB") (some "P") = some [singleC3] ∧
    (runDriver catC3 mediaEmpty flagsNameTracks dbC3).2 = some RunError.typeError ∧
    (runDriver catC3 mediaEmpty flagsNameTracks dbC3).1.albums = [] := by
  decide

/-- C4 counterexample: in `dbC4` two albums have zero tracks; fetching
the first raises while fetching the second would succeed, yet the
tracks pass aborts the entire run at the first album (the get_album
call is not wrapped in try/except): the run does not continue with the
next unit. -/
theorem c4_counterexample :
    catC4.get_album (some "A0") = none ∧
    catC4.get_album (some "A1") = some mdAlbC1 ∧
    tracksPass catC4 dbC4 = (dbC4, some RunError.fetchError) := by
  decide

/-- C4 (amended): a get_artist failure in the enrichment pass is caught —
that artist is skipped with the store untouched and the sweep continues
with the remaining artists (no rollback of previously saved units since
the fold threads the state through); a get_album failure in the tracks
pass is NOT caught: it aborts the run, keeping the state reached so far
and leaving the remaining albums unprocessed. -/
theorem c4_amended (cat : Catalog) (flags : Flags) (db : DB) (a : Artist) (rest : List Artist)
    (alb : Album) (albs : List Album)
    (hfa : cat.get_artist a.yt_id = none) (hfb : cat.get_album alb.yt_id = none) :
    artistEnrichStep cat flags db a = (db, none) ∧
    foldU (artistEnrichStep cat flags) db (a :: rest) =
      foldU (artistEnrichStep cat flags) db rest ∧
    processAlbumTracks cat db alb = (db, some RunError.fetchError) ∧
    foldU (processAlbumTracks cat) db (alb :: albs) = (db, some RunError.fetchError) := by
  have h1 : artistEnrichStep cat flags db a = (db, none) := by
    simp [artistEnrichStep, hfa]
  have h2 : processAlbumTracks cat db alb = (db, some RunError.fetchError) := by
    simp [processAlbumTracks, hfb]
  exact ⟨h1, foldU_cons_none _ _ _ _ _ h1, h2, foldU_cons_some _ _ _ _ _ _ h2⟩

/-- C4 witness: the amended theorem at the concrete two-album store whose
first album fetch fails. -/
theorem c4_amended_witness :
    artistEnrichStep catC4 flagsTracksOnly dbC4 artC1 = (dbC4, none) ∧
    foldU (artistEnrichStep catC4 flagsTracksOnly) dbC4 (artC1 :: []) =
      foldU (artistEnrichStep catC4 flagsTracksOnly) dbC4 [] ∧
    processAlbumTracks catC4 dbC4 albC4a = (dbC4, some RunError.fetchError) ∧
    foldU (processAlbumTracks catC4) dbC4 (albC4a :: []) = (dbC4, some RunError.fetchError) :=
  c4_amended catC4 flagsTracksOnly dbC4 artC1 [] albC4a [] rfl rfl

/-- C5 counterexample: a track with exactly ONE featured artist (not more
than one) already gets the plural semicolon-joined `artists` field
("Alice;Bob") and no singular `artist` field — the source condition is
`featured_artists.count() > 0`, not `> 1`. -/
theorem c5_counterexample :
    tagTrackOneFeat.featured.length = 1 ∧
    write_metadata tagTrackOneFeat =
      [("title", "Song"), ("artists", "Alice;Bob"), ("album", "Alb"),
       ("albumartist", "Alice"), ("tracknumber", "1")] := by
  decide

/-- C5 (amended): the tagger writes the semicolon-joined multi-artist
`artists` field (primary artist first, then each featured artist in
iteration order) instead of the singular `artist` field exactly when
the track has AT LEAST ONE featured artist; in particular Alice with
featured Bob and Carol yields "Alice;Bob;Carol". -/
theorem c5_amended (t : TagTrack) :
    (t.featured ≠ [] → write_metadata t =
      [("title", t.title), ("artists", joinedArtists t), ("album", t.albumTitle),
       ("albumartist", t.albumArtist), ("tracknumber", toString t.order)]) ∧
    (t.featured = [] → write_metadata t =
      [("title", t.title), ("artist", t.albumArtist), ("album", t.albumTitle),
       ("albumartist", t.albumArtist), ("tracknumber", toString t.order)]) ∧
    write_metadata tagTrackAliceBobCarol =
      [("title", "Song"), ("artists", "Alice;Bob;Carol"), ("album", "Alb"),
       ("albumartist", "Alice"), ("tracknumber", "1")] := by
  refine ⟨?_, ?_, by decide⟩
  · intro h
    have hl : 0 < t.featured.length := List.length_pos.mpr h
    simp [write_metadata, hl]
  · intro h
    simp [write_metadata, h]

/-- C5 witness: the amended theorem applied to the one-featured-artist
track, its hypothesis discharged by computation. -/
theorem c5_amended_witness :
    write_metadata tagTrackOneFeat =
      [("title", tagTrackOneFeat.title), ("artists", joinedArtists tagTrackOneFeat),
       ("album", tagTrackOneFeat.albumTitle), ("albumartist", tagTrackOneFeat.albumArtist),
       ("tracknumber", toString tagTrackOneFeat.order)] :=
  (c5_amended tagTrackOneFeat).1 (by decide)

/-- C8: the artist-selection filter is the conjunction of exactly the
conditions of the set name/banner/album flags (an artist is selected
iff it satisfies every set flag's condition), while the tracks pass and
the pp pass behave identically under any change of the other flags
(their sweeps select rows independently of them). -/
theorem c8_flag_combination :
    (∀ (flags : Flags) (db : DB) (a : Artist), artistSelected flags db a = true ↔
      ((flags.name = true → nameBlankQ a = true) ∧
       (flags.banner = true → bannerBlankQ a = true) ∧
       (flags.album = true → albumQ db a = true))) ∧
    (∀ (cat : Catalog) (f1 f2 : Flags) (db : DB), f1.tracks = f2.tracks →
      tracksPassRun cat f1 db = tracksPassRun cat f2 db) ∧
    (∀ (media : Media) (f1 f2 : Flags) (db : DB), f1.pp = f2.pp →
      ppPass media f1 db = ppPass media f2 db) := by
  refine ⟨?_, ?_, ?_⟩
  · intro flags db a
    rcases flags with ⟨n, b, alq, p, tr⟩
    cases n <;> cases b <;> cases alq <;> simp [artistSelected, and_assoc]
  · intro cat f1 f2 db h
    unfold tracksPassRun
    rw [h]
  · intro media f1 f2 db h
    unfold ppPass
    rw [h]

/-- C8 witness: the selection equivalence at a concrete flag set and
store, and the flag-independence equalities at two flag vectors that
differ in every other flag. -/
theorem c8_flag_combination_witness :
    (artistSelected ⟨true, true, false, false, false⟩ dbC1 artC1 = true ↔
      ((true = true → nameBlankQ artC1 = true) ∧
       (true = true → bannerBlankQ artC1 = true) ∧
       (false = true → albumQ dbC1 artC1 = true))) ∧
    tracksPassRun catC1 ⟨true, false, false, false, true⟩ dbC1 =
      tracksPassRun catC1 ⟨false, true, true, true, true⟩ dbC1 ∧
    ppPass mediaEmpty ⟨true, false, false, true, false⟩ dbC1 =
      ppPass mediaEmpty ⟨false, true, true, true, false⟩ dbC1 :=
  ⟨c8_flag_combination.1 ⟨true, true, false, false, false⟩ dbC1 artC1,
   c8_flag_combination.2.1 catC1 ⟨true, false, false, false, true⟩
     ⟨false, true, true, true, true⟩ dbC1 rfl,
   c8_flag_combination.2.2 mediaEmpty ⟨true, false, false, true, false⟩
     ⟨false, true, true, true, false⟩ dbC1 rfl⟩

theorem addFeaturedRow_keyFields (db : DB) (tp ap : Nat) :
    (addFeaturedRow db tp ap).tracks.map trackKeyFields = db.tracks.map trackKeyFields := by
  simp only [addFeaturedRow, List.map_map]
  refine List.map_congr_left ?_
  intro t _
  by_cases h1 : t.id = tp
  · by_cases h2 : ap ∈ t.featured <;> simp [trackKeyFields, h1, h2, Function.comp]
  · simp [trackKeyFields, h1, Function.comp]

theorem trackArtistStep_keyFields (db : DB) (aid tp : Nat) (ta : TrackArtist) :
    (trackArtistStep db aid tp ta).1.tracks.map trackKeyFields =
      db.tracks.map trackKeyFields := by
  unfold trackArtistStep
  split
  · split
    · rfl
    · split
      · split
        · exact addFeaturedRow_keyFields db tp _
        · exact addFeaturedRow_keyFields _ tp _
      · rfl
  · rfl

theorem addFeaturedRow_keyUnique (db : DB) (tp ap : Nat) (h : tracksKeyUnique db.tracks) :
    tracksKeyUnique (addFeaturedRow db tp ap).tracks := by
  unfold tracksKeyUnique addFeaturedRow
  simp only
  rw [List.pairwise_map]
  refine h.imp ?_
  intro t1 t2 hne
  by_cases h1 : t1.id = tp <;> by_cases h2 : t2.id = tp <;>
    by_cases m1 : ap ∈ t1.featured <;> by_cases m2 : ap ∈ t2.featured <;>
      simpa [h1, h2, m1, m2] using hne

theorem trackArtistStep_keyUnique (db : DB) (aid tp : Nat) (ta : TrackArtist)
    (h : tracksKeyUnique db.tracks) :
    tracksKeyUnique (trackArtistStep db aid tp ta).1.tracks := by
  unfold trackArtistStep
  split
  · split
    · exact h
    · split
      · split
        · exact addFeaturedRow_keyUnique db tp _ h
        · exact addFeaturedRow_keyUnique _ tp _ h
      · exact h
  · exact h

theorem foldU_keyUnique {α : Type} (f : DB → α → DB × Option RunError)
    (hstep : ∀ d x, tracksKeyUnique d.tracks → tracksKeyUnique (f d x).1.tracks)
    (xs : List α) (db : DB) (h : tracksKeyUnique db.tracks) :
    tracksKeyUnique (foldU f db xs).1.tracks :=
  (foldU_rel f (fun d d2 => tracksKeyUnique d.tracks → tracksKeyUnique d2.tracks)
    (fun _ hh => hh) (fun _ _ _ h1 h2 hh => h2 (h1 hh)) xs db (fun d x _ => hstep d x)) h

theorem processTrackEntry_keyUnique (db : DB) (pk aid : Nat) (e : TrackEntry)
    (h : tracksKeyUnique db.tracks) :
    tracksKeyUnique (processTrackEntry db pk aid e).1.tracks := by
  rcases hf : db.tracks.find? (fun t => t.yt_id == e.videoId) with _ | t
  · have hnew : tracksKeyUnique (db.tracks ++
        [{ id := db.nextTrackId, title := e.title, order := e.trackNumber,
           duration := e.duration_seconds, albumId := pk, featured := [],
           yt_id := e.videoId }]) := by
      unfold tracksKeyUnique
      rw [List.pairwise_append]
      refine ⟨h, by simp, ?_⟩
      intro t1 ht1 t2 ht2
      simp only [List.mem_singleton] at ht2
      subst ht2
      have hno := List.find?_eq_none.mp hf t1 ht1
      simpa using hno
    rcases ha : e.artists with _ | tas
    · simpa [processTrackEntry, hf, ha] using hnew
    · simp only [processTrackEntry, hf, ha]
      exact foldU_keyUnique _ (fun d x => trackArtistStep_keyUnique d aid _ x) tas _ hnew
  · rcases ha : e.artists with _ | tas
    · simpa [processTrackEntry, hf, ha] using h
    · simp only [processTrackEntry, hf, ha]
      exact foldU_keyUnique _ (fun d x => trackArtistStep_keyUnique d aid _ x) tas _ h

theorem tracksExtended_refl (d : DB) : tracksExtended d d := ⟨[], by simp⟩

theorem tracksExtended_trans (d1 d2 d3 : DB) (h1 : tracksExtended d1 d2)
    (h2 : tracksExtended d2 d3) : tracksExtended d1 d3 := by
  rcases h1 with ⟨L1, e1⟩
  rcases h2 with ⟨L2, e2⟩
  exact ⟨L1 ++ L2, by rw [e2, e1, List.append_assoc]⟩

theorem processTrackEntry_tracksExtended (db : DB) (pk aid : Nat) (e : TrackEntry) :
    tracksExtended db (processTrackEntry db pk aid e).1 := by
  have hfold : ∀ (d : DB) (tas : List TrackArtist) (tp : Nat),
      (foldU (fun d2 ta => trackArtistStep d2 aid tp ta) d tas).1.tracks.map trackKeyFields =
        d.tracks.map trackKeyFields := by
    intro d tas tp
    exact foldU_pre _ (fun d2 => d2.tracks.map trackKeyFields) tas d
      (fun d2 x _ => trackArtistStep_keyFields d2 aid tp x)
  rcases hf : db.tracks.find? (fun t => t.yt_id == e.videoId) with _ | t
  · rcases ha : e.artists with _ | tas
    · refine ⟨[trackKeyFields { id := db.nextTrackId, title := e.title,
                                order := e.trackNumber, duration := e.duration_seconds,
                                albumId := pk, featured := [], yt_id := e.videoId }], ?_⟩
      simp [processTrackEntry, hf, ha]
    · refine ⟨[trackKeyFields { id := db.nextTrackId, title := e.title,
                                order := e.trackNumber, duration := e.duration_seconds,
                                albumId := pk, featured := [], yt_id := e.videoId }], ?_⟩
      simp only [processTrackEntry, hf, ha]
      rw [hfold]
      simp
  · rcases ha : e.artists with _ | tas
    · exact ⟨[], by simp [processTrackEntry, hf, ha]⟩
    · refine ⟨[], ?_⟩
      simp only [processTrackEntry, hf, ha]
      rw [hfold]
      simp

theorem albumCoverStep_tracks (db1 : DB) (alb : Album) (md : AlbumMeta) :
    (albumCoverStep db1 alb md).1.tracks = db1.tracks := by
  by_cases hcov : alb.cover = none
  · rcases hlast : (md.thumbnails.getD [Thumb.mk none]).getLast? with _ | t
    · simp [albumCoverStep, hcov, hlast]
    · simp [albumCoverStep, hcov, hlast, saveAlbumCoverRow]
  · simp [albumCoverStep, hcov]

theorem processAlbumTracks_tracksExtended (cat : Catalog) (db : DB) (alb : Album) :
    tracksExtended db (processAlbumTracks cat db alb).1 := by
  rcases hga : cat.get_album alb.yt_id with _ | md
  · exact ⟨[], by simp [processAlbumTracks, hga]⟩
  · rcases hcs : albumCoverStep (saveAlbumTitleCount db alb.id md.title (md.trackCount.getD 0))
        alb md with ⟨db2, er⟩
    have ht2 : db2.tracks = db.tracks := by
      have h := albumCoverStep_tracks
        (saveAlbumTitleCount db alb.id md.title (md.trackCount.getD 0)) alb md
      rw [hcs] at h
      exact h
    cases er with
    | some e =>
      have hr : processAlbumTracks cat db alb = (db2, some e) := by
        simp [processAlbumTracks, hga, hcs]
      rw [hr]
      exact ⟨[], by rw [ht2, List.append_nil]⟩
    | none =>
      have hr : processAlbumTracks cat db alb =
          foldU (fun d e => processTrackEntry d alb.id alb.artistId e) db2
            (md.tracks.getD []) := by
        simp [processAlbumTracks, hga, hcs]
      rw [hr]
      have hext : tracksExtended db2
          (foldU (fun d e => processTrackEntry d alb.id alb.artistId e) db2
            (md.tracks.getD [])).1 :=
        foldU_rel _ tracksExtended tracksExtended_refl tracksExtended_trans _ db2
          (fun d x _ => processTrackEntry_tracksExtended d alb.id alb.artistId x)
      rcases hext with ⟨L, hL⟩
      exact ⟨L, by rw [hL, ht2]⟩

theorem processAlbumTracks_keyUnique (cat : Catalog) (db : DB) (alb : Album)
    (h : tracksKeyUnique db.tracks) :
    tracksKeyUnique (processAlbumTracks cat db alb).1.tracks := by
  rcases hga : cat.get_album alb.yt_id with _ | md
  · simpa [processAlbumTracks, hga] using h
  · rcases hcs : albumCoverStep (saveAlbumTitleCount db alb.id md.title (md.trackCount.getD 0))
        alb md with ⟨db2, er⟩
    have ht2 : db2.tracks = db.tracks := by
      have hh := albumCoverStep_tracks
        (saveAlbumTitleCount db alb.id md.title (md.trackCount.getD 0)) alb md
      rw [hcs] at hh
      exact hh
    have h2 : tracksKeyUnique db2.tracks := by
      rw [ht2]
      exact h
    cases er with
    | some e =>
      have hr : processAlbumTracks cat db alb = (db2, some e) := by
        simp [processAlbumTracks, hga, hcs]
      rw [hr]
      exact h2
    | none =>
      have hr : processAlbumTracks cat db alb =
          foldU (fun d e => processTrackEntry d alb.id alb.artistId e) db2
            (md.tracks.getD []) := by
        simp [processAlbumTracks, hga, hcs]
      rw [hr]
      exact foldU_keyUnique _ (fun d x => processTrackEntry_keyUnique d alb.id alb.artistId x)
        _ db2 h2

theorem tracksPass_keyUnique (cat : Catalog) (db : DB) (h : tracksKeyUnique db.tracks) :
    tracksKeyUnique (tracksPass cat db).1.tracks := by
  unfold tracksPass
  exact foldU_keyUnique _ (fun d x => processAlbumTracks_keyUnique cat d x) _ db h

theorem tracksPass_tracksExtended (cat : Catalog) (db : DB) :
    tracksExtended db (tracksPass cat db).1 := by
  unfold tracksPass
  exact foldU_rel _ tracksExtended tracksExtended_refl tracksExtended_trans _ db
    (fun d x _ => processAlbumTracks_tracksExtended cat d x)

theorem artistEnrichStep_tracks (cat : Catalog) (flags : Flags) (db : DB) (art : Artist) :
    (artistEnrichStep cat flags db art).1.tracks = db.tracks := by
  rcases hga : cat.get_artist art.yt_id with _ | md
  · simp [artistEnrichStep, hga]
  · simp only [artistEnrichStep, hga]
    split
    · split
      · simp [saveArtist]
      · exact ((parseTracksStage_stable cat flags _ _ md).2.1).trans (by simp [saveArtist])
    · exact ((parseTracksStage_stable cat flags _ _ md).2.1).trans (by simp [saveArtist])

theorem ppStep_tracks (media : Media) (db : DB) (a : Artist) :
    (ppStep media db a).1.tracks = db.tracks := by
  rcases hid : a.yt_id with _ | yid
  · simp [ppStep, hid]
  · rcases hx : media.extract_info
        (if yid.startsWith "https://" then yid else "https://youtube.com/channel/" ++ yid)
      with _ | info
    · simp [ppStep, hid, hx]
    · rcases hth : info.thumbnails with _ | ts
      · simp [ppStep, hid, hx, hth]
      · cases ts with
        | nil => simp [ppStep, hid, hx, hth]
        | cons t rest => simp [ppStep, hid, hx, hth, saveArtist]

theorem artistPass_tracks (cat : Catalog) (flags : Flags) (db : DB) :
    (artistPass cat flags db).1.tracks = db.tracks := by
  unfold artistPass
  split
  · exact foldU_pre _ (fun d => d.tracks) _ db
      (fun d x _ => artistEnrichStep_tracks cat flags d x)
  · rfl

theorem ppPass_tracks (media : Media) (flags : Flags) (db : DB) :
    (ppPass media flags db).1.tracks = db.tracks := by
  unfold ppPass
  split
  · exact foldU_pre _ (fun d => d.tracks) _ db (fun d x _ => ppStep_tracks media d x)
  · rfl

theorem tracksPassRun_tracksExtended (cat : Catalog) (flags : Flags) (db : DB) :
    tracksExtended db (tracksPassRun cat flags db).1 := by
  unfold tracksPassRun
  split
  · exact tracksPass_tracksExtended cat db
  · exact tracksExtended_refl db

theorem runDriver_tracksExtended (cat : Catalog) (media : Media) (flags : Flags) (db : DB) :
    tracksExtended db (runDriver cat media flags db).1 := by
  rcases hap : artistPass cat flags db with ⟨db1, e1⟩
  have ht1 : db1.tracks = db.tracks := by
    have h := artistPass_tracks cat flags db
    rw [hap] at h
    exact h
  cases e1 with
  | some e =>
    have hrun : runDriver cat media flags db = (db1, some e) := by
      simp [runDriver, hap]
    rw [hrun]
    exact ⟨[], by rw [ht1, List.append_nil]⟩
  | none =>
    rcases hpp : ppPass media flags db1 with ⟨db2, e2⟩
    have ht2 : db2.tracks = db1.tracks := by
      have h := ppPass_tracks media flags db1
      rw [hpp] at h
      exact h
    cases e2 with
    | some e =>
      have hrun : runDriver cat media flags db = (db2, some e) := by
        simp [runDriver, hap, hpp]
      rw [hrun]
      exact ⟨[], by rw [ht2, ht1, List.append_nil]⟩
    | none =>
      have hrun : runDriver cat media flags db = tracksPassRun cat flags db2 := by
        simp [runDriver, hap, hpp]
      rw [hrun]
      rcases tracksPassRun_tracksExtended cat flags db2 with ⟨L, hL⟩
      exact ⟨L, by rw [hL, ht2, ht1]⟩

theorem saveAlbumTitleCount_row (db : DB) (pk : Nat) (t : Option String) (c : Int) :
    ∀ row ∈ (saveAlbumTitleCount db pk t c).albums, row.id = pk →
      row.title = t ∧ row.track_count = c := by
  intro row hrow hid
  simp only [saveAlbumTitleCount, List.mem_map] at hrow
  rcases hrow with ⟨b, hb, hbe⟩
  by_cases h : b.id = pk
  · rw [if_pos h] at hbe
    rw [← hbe]
    exact ⟨rfl, rfl⟩
  · rw [if_neg h] at hbe
    rw [← hbe] at hid
    exact absurd hid h

theorem saveAlbumCoverRow_row_titleCount (db : DB) (pk : Nat) (cv : Option String) :
    ∀ row ∈ (saveAlbumCoverRow db pk cv).albums, ∃ pre ∈ db.albums,
      row.id = pre.id ∧ row.title = pre.title ∧ row.track_count = pre.track_count := by
  intro row hrow
  simp only [saveAlbumCoverRow, List.mem_map] at hrow
  rcases hrow with ⟨b, hb, hbe⟩
  by_cases h : b.id = pk
  · rw [if_pos h] at hbe
    exact ⟨b, hb, by rw [← hbe], by rw [← hbe], by rw [← hbe]⟩
  · rw [if_neg h] at hbe
    subst hbe
    exact ⟨b, hb, rfl, rfl, rfl⟩

theorem albumCoverStep_row_titleCount (db1 : DB) (alb : Album) (md : AlbumMeta) :
    ∀ row ∈ (albumCoverStep db1 alb md).1.albums, ∃ pre ∈ db1.albums,
      row.id = pre.id ∧ row.title = pre.title ∧ row.track_count = pre.track_count := by
  by_cases hcov : alb.cover = none
  · rcases hlast : (md.thumbnails.getD [Thumb.mk none]).getLast? with _ | t
    · intro row hrow
      simp [albumCoverStep, hcov, hlast] at hrow
      exact ⟨row, hrow, rfl, rfl, rfl⟩
    · intro row hrow
      simp [albumCoverStep, hcov, hlast] at hrow
      exact saveAlbumCoverRow_row_titleCount _ alb.id _ row hrow
  · intro row hrow
    simp [albumCoverStep, hcov] at hrow
    exact ⟨row, hrow, rfl, rfl, rfl⟩

theorem processAlbumTracks_refreshes (cat : Catalog) (db : DB) (alb : Album) (md : AlbumMeta)
    (hga : cat.get_album alb.yt_id = some md) :
    ∀ row ∈ (processAlbumTracks cat db alb).1.albums, row.id = alb.id →
      row.title = md.title ∧ row.track_count = md.trackCount.getD 0 := by
  rcases hcs : albumCoverStep (saveAlbumTitleCount db alb.id md.title (md.trackCount.getD 0))
      alb md with ⟨db2, er⟩
  have hdb2 : ∀ row ∈ db2.albums, row.id = alb.id →
      row.title = md.title ∧ row.track_count = md.trackCount.getD 0 := by
    intro row hrow hid
    have h := albumCoverStep_row_titleCount
      (saveAlbumTitleCount db alb.id md.title (md.trackCount.getD 0)) alb md
    rw [hcs] at h
    rcases h row hrow with ⟨pre, hpre, hid2, ht, hc⟩
    have h2 := saveAlbumTitleCount_row db alb.id md.title (md.trackCount.getD 0) pre hpre
      (by rw [← hid2]; exact hid)
    exact ⟨ht.trans h2.1, hc.trans h2.2⟩
  cases er with
  | some e =>
    have hr : processAlbumTracks cat db alb = (db2, some e) := by
      simp [processAlbumTracks, hga, hcs]
    rw [hr]
    exact hdb2
  | none =>
    have hr : processAlbumTracks cat db alb =
        foldU (fun d e => processTrackEntry d alb.id alb.artistId e) db2
          (md.tracks.getD []) := by
      simp [processAlbumTracks, hga, hcs]
    rw [hr]
    have halb := foldU_pre (fun d e => processTrackEntry d alb.id alb.artistId e)
      (fun d => d.albums) (md.tracks.getD []) db2
      (fun d x _ => processTrackEntry_albums d alb.id alb.artistId x)
    intro row hrow hid
    simp only at halb
    rw [halb] at hrow
    exact hdb2 row hrow hid

/-- C2: track discovery is idempotent on Track rows but not on Album
fields.  With all external ids initially distinct, running the tracks
pass twice against the same catalog keeps at most one Track row per
external id; each run only appends Track rows, never changing the
creation-time fields (id, title, order, duration, owning album) of
existing ones; while every processed album has its title and
track_count rewritten from the response on every visit, and (concrete
demonstration) a selecting run rewrites title, track_count and a still
-empty cover of the `dbC2` album from ("old", 0, no cover) to
("new", 1, cover "cv"). -/
theorem c2_track_discovery (cat : Catalog) (db : DB) (h : tracksKeyUnique db.tracks) :
    tracksKeyUnique (tracksPass cat (tracksPass cat db).1).1.tracks ∧
    tracksExtended db (tracksPass cat db).1 ∧
    tracksExtended (tracksPass cat db).1 (tracksPass cat (tracksPass cat db).1).1 ∧
    (∀ (db2 : DB) (alb : Album) (md : AlbumMeta), cat.get_album alb.yt_id = some md →
      ∀ row ∈ (processAlbumTracks cat db2 alb).1.albums, row.id = alb.id →
        row.title = md.title ∧ row.track_count = md.trackCount.getD 0) ∧
    dbC2.albums.map (fun al => (al.title, al.track_count, al.cover)) =
      [(some "old", (0 : Int), none)] ∧
    (tracksPass catC2 dbC2).1.albums.map (fun al => (al.title, al.track_count, al.cover)) =
      [(some "new", (1 : Int), some "cv")] := by
  refine ⟨tracksPass_keyUnique cat _ (tracksPass_keyUnique cat db h),
    tracksPass_tracksExtended cat db, tracksPass_tracksExtended cat _,
    ?_, by decide, by decide⟩
  intro db2 alb md hga
  exact processAlbumTracks_refreshes cat db2 alb md hga

/-- C2 witness: the theorem applied to the concrete one-album store and
catalog, its key-uniqueness hypothesis discharged by computation. -/
theorem c2_track_discovery_witness :
    tracksKeyUnique (tracksPass catC2 (tracksPass catC2 dbC2).1).1.tracks ∧
    tracksExtended dbC2 (tracksPass catC2 dbC2).1 ∧
    tracksExtended (tracksPass catC2 dbC2).1 (tracksPass catC2 (tracksPass catC2 dbC2).1).1 ∧
    (∀ (db2 : DB) (alb : Album) (md : AlbumMeta), catC2.get_album alb.yt_id = some md →
      ∀ row ∈ (processAlbumTracks catC2 db2 alb).1.albums, row.id = alb.id →
        row.title = md.title ∧ row.track_count = md.trackCount.getD 0) ∧
    dbC2.albums.map (fun al => (al.title, al.track_count, al.cover)) =
      [(some "old", (0 : Int), none)] ∧
    (tracksPass catC2 dbC2).1.albums.map (fun al => (al.title, al.track_count, al.cover)) =
      [(some "new", (1 : Int), some "cv")] :=
  c2_track_discovery catC2 dbC2 List.Pairwise.nil

/-- C10: the get-or-create of track discovery is keyed solely by the
external id — when a Track with the entry's external id already exists,
processing that entry (under any album, including a different one)
creates no new Track row and leaves every existing row's id, title,
order, duration and owning album unchanged; and no pass of the driver
ever rewrites those creation-time fields of an existing Track row (a
Track's owning Album is never reassigned). -/
theorem c10_track_keyed_by_external_id (db : DB) (albumPk albumArtistId : Nat)
    (e : TrackEntry) (hb : (db.tracks.any fun t => t.yt_id == e.videoId) = true) :
    (processTrackEntry db albumPk albumArtistId e).1.tracks.map trackKeyFields =
      db.tracks.map trackKeyFields ∧
    ∀ (cat : Catalog) (media : Media) (flags : Flags) (db2 : DB),
      ∃ L, (runDriver cat media flags db2).1.tracks.map trackKeyFields =
        db2.tracks.map trackKeyFields ++ L := by
  constructor
  · rcases hf : db.tracks.find? (fun t => t.yt_id == e.videoId) with _ | t
    · exfalso
      rcases List.any_eq_true.mp hb with ⟨t, ht, hp⟩
      exact (List.find?_eq_none.mp hf t ht) hp
    · rcases ha : e.artists with _ | tas
      · simp [processTrackEntry, hf, ha]
      · simp only [processTrackEntry, hf, ha]
        exact foldU_pre _ (fun d2 => d2.tracks.map trackKeyFields) tas _
          (fun d2 x _ => trackArtistStep_keyFields d2 _ _ x)
  · intro cat media flags db2
    exact runDriver_tracksExtended cat media flags db2

/-- C10 witness: the theorem applied at the concrete store holding a
track with external id "V1" under album 0, processing an entry with the
same external id listed under the different album 1. -/
theorem c10_track_keyed_by_external_id_witness :
    (processTrackEntry dbC10 1 0 entC10).1.tracks.map trackKeyFields =
      dbC10.tracks.map trackKeyFields ∧
    ∀ (cat : Catalog) (media : Media) (flags : Flags) (db2 : DB),
      ∃ L, (runDriver cat media flags db2).1.tracks.map trackKeyFields =
        db2.tracks.map trackKeyFields ++ L :=
  c10_track_keyed_by_external_id dbC10 1 0 entC10 (by decide)
